import Mathlib

set_option maxHeartbeats 1000000

/-!
Verification development for the OFFAT specification-to-test-plan compiler:
a shallow embedding of the OpenAPI v3 parser (src/offat/parsers/openapi.py)
and the test generator (src/offat/tester/generator.py), together with
theorems settling the frozen claims about them.

The decoded OpenAPI document is a generic JSON-like tree.  Python dicts are
modelled as association lists that preserve insertion order and are assumed
to have unique keys (as Python dicts do).
-/

/-- A decoded JSON document tree: the input shape consumed by the parser. -/
inductive Json where
  | null : Json
  | bool (b : Bool) : Json
  | num (n : Int) : Json
  | str (s : String) : Json
  | arr (elems : List Json) : Json
  | obj (kvs : List (String × Json)) : Json

mutual

/-- Decidable equality on JSON trees (the deriving handler does not support
this nested inductive, so it is spelled out). -/
def Json.decEq : (a b : Json) → Decidable (a = b)
  | .null, .null => .isTrue rfl
  | .null, .bool _ => .isFalse (fun h => Json.noConfusion h)
  | .null, .num _ => .isFalse (fun h => Json.noConfusion h)
  | .null, .str _ => .isFalse (fun h => Json.noConfusion h)
  | .null, .arr _ => .isFalse (fun h => Json.noConfusion h)
  | .null, .obj _ => .isFalse (fun h => Json.noConfusion h)
  | .bool _, .null => .isFalse (fun h => Json.noConfusion h)
  | .bool x, .bool y =>
    if h : x = y then .isTrue (by rw [h]) else .isFalse (fun hh => h (by cases hh; rfl))
  | .bool _, .num _ => .isFalse (fun h => Json.noConfusion h)
  | .bool _, .str _ => .isFalse (fun h => Json.noConfusion h)
  | .bool _, .arr _ => .isFalse (fun h => Json.noConfusion h)
  | .bool _, .obj _ => .isFalse (fun h => Json.noConfusion h)
  | .num _, .null => .isFalse (fun h => Json.noConfusion h)
  | .num _, .bool _ => .isFalse (fun h => Json.noConfusion h)
  | .num x, .num y =>
    if h : x = y then .isTrue (by rw [h]) else .isFalse (fun hh => h (by cases hh; rfl))
  | .num _, .str _ => .isFalse (fun h => Json.noConfusion h)
  | .num _, .arr _ => .isFalse (fun h => Json.noConfusion h)
  | .num _, .obj _ => .isFalse (fun h => Json.noConfusion h)
  | .str _, .null => .isFalse (fun h => Json.noConfusion h)
  | .str _, .bool _ => .isFalse (fun h => Json.noConfusion h)
  | .str _, .num _ => .isFalse (fun h => Json.noConfusion h)
  | .str x, .str y =>
    if h : x = y then .isTrue (by rw [h]) else .isFalse (fun hh => h (by cases hh; rfl))
  | .str _, .arr _ => .isFalse (fun h => Json.noConfusion h)
  | .str _, .obj _ => .isFalse (fun h => Json.noConfusion h)
  | .arr _, .null => .isFalse (fun h => Json.noConfusion h)
  | .arr _, .bool _ => .isFalse (fun h => Json.noConfusion h)
  | .arr _, .num _ => .isFalse (fun h => Json.noConfusion h)
  | .arr _, .str _ => .isFalse (fun h => Json.noConfusion h)
  | .arr xs, .arr ys =>
    match Json.decEqList xs ys with
    | .isTrue h => .isTrue (by rw [h])
    | .isFalse h => .isFalse (fun hh => h (by cases hh; rfl))
  | .arr _, .obj _ => .isFalse (fun h => Json.noConfusion h)
  | .obj _, .null => .isFalse (fun h => Json.noConfusion h)
  | .obj _, .bool _ => .isFalse (fun h => Json.noConfusion h)
  | .obj _, .num _ => .isFalse (fun h => Json.noConfusion h)
  | .obj _, .str _ => .isFalse (fun h => Json.noConfusion h)
  | .obj _, .arr _ => .isFalse (fun h => Json.noConfusion h)
  | .obj xs, .obj ys =>
    match Json.decEqKvs xs ys with
    | .isTrue h => .isTrue (by rw [h])
    | .isFalse h => .isFalse (fun hh => h (by cases hh; rfl))

/-- Decidable equality for lists of JSON values. -/
def Json.decEqList : (a b : List Json) → Decidable (a = b)
  | [], [] => .isTrue rfl
  | [], _ :: _ => .isFalse (fun h => List.noConfusion h)
  | _ :: _, [] => .isFalse (fun h => List.noConfusion h)
  | x :: xs, y :: ys =>
    match Json.decEq x y with
    | .isFalse h => .isFalse (fun hh => h (by cases hh; rfl))
    | .isTrue h1 =>
      match Json.decEqList xs ys with
      | .isTrue h2 => .isTrue (by rw [h1, h2])
      | .isFalse h2 => .isFalse (fun hh => h2 (by cases hh; rfl))

/-- Decidable equality for JSON object bindings. -/
def Json.decEqKvs : (a b : List (String × Json)) → Decidable (a = b)
  | [], [] => .isTrue rfl
  | [], _ :: _ => .isFalse (fun h => List.noConfusion h)
  | _ :: _, [] => .isFalse (fun h => List.noConfusion h)
  | (k, v) :: xs, (k', v') :: ys =>
    if hk : k = k' then
      match Json.decEq v v' with
      | .isFalse h => .isFalse (fun hh => h (by cases hh; rfl))
      | .isTrue h1 =>
        match Json.decEqKvs xs ys with
        | .isTrue h2 => .isTrue (by rw [hk, h1, h2])
        | .isFalse h2 => .isFalse (fun hh => h2 (by cases hh; rfl))
    else .isFalse (fun hh => hk (by cases hh; rfl))

end

instance : DecidableEq Json := Json.decEq

instance : Inhabited Json := ⟨Json.null⟩

namespace Json

/-- Dictionary lookup: first value bound to the key, if any (dict access). -/
def getKey? : Json → String → Option Json
  | .obj kvs, k => kvs.lookup k
  | _, _ => none

/-- Python dict.get with a default value. -/
def getD (j : Json) (k : String) (d : Json) : Json :=
  (j.getKey? k).getD d

/-- Whether an object carries the given key. -/
def hasKey (j : Json) (k : String) : Bool :=
  (j.getKey? k).isSome

/-- Replace the binding of the key in place, or append it at the end: the
helper behind Python dict assignment (keys are unique in a dict, so
replacing the first occurrence is replacing the occurrence). -/
def objSetList (kvs : List (String × Json)) (k : String) (v : Json) :
    List (String × Json) :=
  match kvs with
  | [] => [(k, v)]
  | kv :: rest => if kv.1 = k then (kv.1, v) :: rest else kv :: objSetList rest k v

/-- Python dict assignment: replace the value in place if the key exists,
otherwise append the binding at the end (insertion order semantics). -/
def objSet : Json → String → Json → Json
  | .obj kvs, k, v => .obj (objSetList kvs k v)
  | j, _, _ => j

/-- Python dict.pop: remove the key (no effect on non-objects). -/
def objDrop : Json → String → Json
  | .obj kvs, k => .obj (kvs.filter (fun kv => kv.1 ≠ k))
  | j, _ => j

/-- Keys of an object, in insertion order. -/
def keys : Json → List String
  | .obj kvs => kvs.map (·.1)
  | _ => []

/-- Coerce to a list of elements (empty for non-arrays). -/
def asList : Json → List Json
  | .arr xs => xs
  | _ => []

/-- Coerce to a string, with a default for non-strings. -/
def asStringD (j : Json) (d : String) : String :=
  match j with
  | .str s => s
  | _ => d

/-- Python truthiness of a JSON value. -/
def truthy : Json → Bool
  | .null => false
  | .bool b => b
  | .num n => n != 0
  | .str s => s != ""
  | .arr xs => !xs.isEmpty
  | .obj kvs => !kvs.isEmpty

/-- Python str() applied to a scalar JSON value, as used when path-template
placeholders are substituted.  Containers are approximated by the empty
string; the claims never substitute container values. -/
def pyStr : Json → String
  | .null => "None"
  | .bool true => "True"
  | .bool false => "False"
  | .num n => toString n
  | .str s => s
  | .arr _ => ""
  | .obj _ => ""

/-- Object bindings (empty for non-objects). -/
def kvsOf : Json → List (String × Json)
  | .obj kvs => kvs
  | _ => []

end Json

/-- Python str.split on a single separator character: splits at every
occurrence and keeps empty fragments. -/
def pySplitAux (sep : Char) : List Char → List Char → List String
  | [], acc => [String.mk acc.reverse]
  | c :: rest, acc =>
    if c = sep then String.mk acc.reverse :: pySplitAux sep rest []
    else pySplitAux sep rest (c :: acc)

/-- Python str.split with a one-character separator. -/
def pySplit (s : String) (sep : Char) : List String :=
  pySplitAux sep s.data []

/-- Python str.upper, character by character (ASCII). -/
def pyUpper (s : String) : String := String.mk (s.data.map Char.toUpper)

/-- Python str.lower, character by character (ASCII). -/
def pyLower (s : String) : String := String.mk (s.data.map Char.toLower)

/-- Python str.replace on character lists: replaces all non-overlapping
occurrences of the (non-empty) pattern, scanning left to right. -/
def replL (pat repl : List Char) : List Char → List Char
  | [] => []
  | c :: rest =>
    if pat ≠ [] ∧ pat.isPrefixOf (c :: rest) then
      repl ++ replL pat repl (rest.drop (pat.length - 1))
    else
      c :: replL pat repl rest
termination_by s => s.length
decreasing_by
  · simp; omega
  · simp

/-- Python str.replace. -/
def pyReplace (s pat repl : String) : String :=
  String.mk (replL pat.data repl.data s.data)

/-- The substring relation, as tested by the Python in operator on strings. -/
def substrOf (p s : String) : Prop :=
  p.data <:+: s.data

instance (p s : String) : Decidable (substrOf p s) :=
  inferInstanceAs (Decidable (p.data <:+: s.data))

/-- Boolean form of the Python in operator on strings. -/
def substrB (p s : String) : Bool :=
  decide (substrOf p s)

/-- Decomposition of the digits of a port number. -/
def digitsToNat (cs : List Char) : Nat :=
  cs.foldl (fun n c => n * 10 + (c.toNat - '0'.toNat)) 0

/-- Server descriptor derived from one declared server URL. -/
structure HostInfo where
  scheme : String
  host : String
  port : Nat
  basepath : String
deriving DecidableEq, Inhabited

/-- Modelled from the spec: parse_server_url lives in utils.py, which is not
among the sources.  Per section 4.4 it maps a URL to (scheme, host, port,
basepath): the scheme of the URL, the authority split into host and optional
port, the port defaulting to 80 for http and 443 for https when absent, and
the basepath treating the empty string and a bare slash equivalently (both
represented here as the empty string), with a leading slash otherwise
preserved. -/
def parse_server_url (url : String) : HostInfo :=
  let isHttps := "https://".data.isPrefixOf url.data
  let rest :=
    if isHttps then url.data.drop 8
    else if "http://".data.isPrefixOf url.data then url.data.drop 7
    else url.data
  let authority := rest.takeWhile (fun c => c ≠ '/')
  let pathPart := rest.dropWhile (fun c => c ≠ '/')
  let hostChars := authority.takeWhile (fun c => c ≠ ':')
  let portChars := (authority.dropWhile (fun c => c ≠ ':')).drop 1
  { scheme := if isHttps then "https" else "http",
    host := String.mk hostChars,
    port := if portChars.isEmpty then (if isHttps then 443 else 80) else digitsToNat portChars,
    basepath := if pathPart = ['/'] then "" else String.mk pathPart }

/-- One joining step: exactly one slash between two parts. -/
def join1 (a b : String) : String :=
  String.mk ((a.data.reverse.dropWhile (fun c => c = '/')).reverse
    ++ '/' :: b.data.dropWhile (fun c => c = '/'))

/-- Modelled from the spec: join_uri_path lives in utils.py, which is not
among the sources.  Per section 4.4 it concatenates its parts with exactly
one slash between consecutive parts, preserving an initial scheme marker and
any leading slash of the first part, not appending a trailing slash; empty
parts contribute nothing. -/
def join_uri_path (parts : List String) : String :=
  match parts.filter (fun s => s != "") with
  | [] => ""
  | h :: t => t.foldl join1 h

/-- Modelled from the spec: get_unique_params lives in utils.py, which is not
among the sources.  Per section 4.4 it returns the primary sequence plus
every entry of the secondary sequence whose name does not already appear in
the primary one, first occurrence winning. -/
def get_unique_params (primary secondary : List Json) : List Json :=
  primary ++ secondary.filter (fun b =>
    !(primary.any (fun a => a.getD "name" .null == b.getD "name" .null)))

/-- Type-appropriate synthetic datum for a primitive declared type. -/
def fuzzPrimitive : String → Json
  | "string" => .str "test"
  | "integer" => .num 7
  | "number" => .num 7
  | "boolean" => .bool true
  | _ => .str "test"

/-- Where the declared type of a parameter lives: at the top level for v2
records, nested under the schema for v3 records. -/
def paramTypeSource (p : Json) (isV3 : Bool) : Json :=
  if isV3 then p.getD "schema" (Json.obj []) else p

/-- Modelled from the spec: the parameter fuzzer (fill_params in fuzzer.py)
is not among the sources.  Per section 4.2 it maps each record to a copy
whose value attribute holds a type-appropriate synthetic datum; this model
fixes the random draws to one deterministic choice per type, which the spec
allows.  Arrays get a one-element sequence generated per the items type and
objects a mapping generated from the declared properties. -/
def fuzzParamValue (p : Json) (isV3 : Bool) : Json :=
  let src := paramTypeSource p isV3
  match (src.getD "type" .null).asStringD "" with
  | "array" =>
    .arr [fuzzPrimitive (((src.getD "items" (Json.obj [])).getD "type" .null).asStringD "")]
  | "object" =>
    .obj ((src.getD "properties" (Json.obj [])).kvsOf.map
      (fun kv => (kv.1, fuzzPrimitive ((kv.2.getD "type" .null).asStringD ""))))
  | t => fuzzPrimitive t

/-- Modelled from the spec: fill_params returns a fresh sequence of records
with the value attribute filled (section 4.2). -/
def fill_params (params : List Json) (isV3 : Bool) : List Json :=
  params.map (fun p => p.objSet "value" (fuzzParamValue p isV3))

/-- Modelled from the spec: generate_random_int in fuzzer.py is not among
the sources; the model fixes its draw. -/
def generate_random_int : Int := 397

/-- Modelled from the spec: PostTestFiltersEnum lives in
post_test_processor.py, which is not among the sources.  Section 3 fixes the
enumeration to exactly two values; descriptors carry the member name. -/
def STATUS_CODE_FILTER : String := "STATUS_CODE_FILTER"

/-- Modelled from the spec: the second member of the filter enumeration. -/
def BODY_REGEX_FILTER : String := "BODY_REGEX_FILTER"

/-- Normalized representation of one (path, method) pair, mirroring the
record dict built at the end of get_request_response_params in
src/offat/parsers/openapi.py. -/
structure EndpointRecord where
  http_method : String
  path : String
  request_params : List Json := []
  response_params : Json := Json.obj []
  path_params : List Json := []
  body_params : List Json := []
  security : List Json := []
deriving DecidableEq, Inhabited

namespace OpenAPIv3Parser

/-- Modelled from the spec: dialect detection happens in BaseParser
(parser.py), which is not among the sources.  Per section 4.1 a document is
OpenAPI v3 iff it contains a top-level openapi string beginning with 3. -/
def is_v3_doc (doc : Json) : Bool :=
  "3.".data.isPrefixOf ((doc.getD "openapi" .null).asStringD "").data

/-- Embeds get_scheme (openapi.py lines 67-74): https if the text https://
occurs inside any declared server url, http otherwise. -/
def _get_scheme (doc : Json) : String :=
  let servers := (doc.getD "servers" (Json.arr [])).asList
  let schemes := servers.map (fun s =>
    if substrB "https://" ((s.getD "url" .null).asStringD "") then "https" else "http")
  if schemes.contains "https" then "https" else "http"

/-- Embeds populate_hosts (openapi.py lines 46-65): fails when the servers
entry is absent or falsy, otherwise parses each server url. -/
def _populate_hosts (doc : Json) : Except String (List HostInfo) :=
  let servers := doc.getD "servers" (Json.arr [])
  if !servers.truthy then .error "Server URLs Not Found in spec file"
  else .ok (servers.asList.map (fun s => parse_server_url ((s.getD "url" .null).asStringD "")))

/-- Embeds fetch_schema_from_spec (openapi.py lines 76-89): drops the
leading fragment marker of the reference, refuses depth greater than three,
and otherwise descends with an empty-object default at each step. -/
def _fetch_schema_from_spec (spec : Json) (ref : String) : Json :=
  let schema_spec_path := (pySplit ref '/').drop 1
  if schema_spec_path.length > 3 then Json.obj []
  else schema_spec_path.foldl (fun j k => j.getD k (Json.obj [])) spec

/-- Embeds get_param_definition_schema (openapi.py lines 91-101). -/
def _get_param_definition_schema (spec param : Json) : Json :=
  let param_schema := param.getD "schema" .null
  if param_schema.truthy then
    let ref := param_schema.getD "$ref" .null
    if ref.truthy then _fetch_schema_from_spec spec (ref.asStringD "")
    else param_schema
  else param_schema

/-- Per-status-code step of get_response_definition_schema (openapi.py
lines 112-137): the source mutates the response object in place, writing a
schema entry; this model returns the updated object.  Reference lookups use
the document tree as of the start of the enclosing operation. -/
def processStatus (spec v : Json) : Json :=
  let content := v.getD "content" .null
  if content.truthy then
    content.keys.foldl (fun vAcc ct =>
      let entry := content.getD ct .null
      if entry.hasKey "parameters" then vAcc.objSet "schema" (entry.getD "parameters" .null)
      else if entry.hasKey "schema" then
        vAcc.objSet "schema" (_get_param_definition_schema spec entry)
      else vAcc) v
  else
    let ref := v.getD "$ref" .null
    if ref.truthy then v.objSet "schema" (_fetch_schema_from_spec spec (ref.asStringD ""))
    else v

/-- Embeds get_response_definition_schema (openapi.py lines 103-139): every
status entry of the responses object is processed in place. -/
def _get_response_definition_schema (spec responses : Json) : Json :=
  match responses with
  | .obj kvs => .obj (kvs.map (fun kv => (kv.1, processStatus spec kv.2)))
  | j => j

/-- The verbs the normalizer recognizes (openapi.py line 159). -/
def allowed_http_methods : List String := ["get", "put", "post", "delete", "options"]

/-- One iteration of the method loop of get_request_response_params
(openapi.py lines 157-210) for a recognized verb: builds the endpoint record
and returns the document tree updated with the in-place writes the source
performs (the processed responses object, and the operation parameters list
extended with the synthesized body parameters when that key exists). -/
def processOperation (doc : Json) (path m : String) (path_params : List Json) :
    Json × EndpointRecord :=
  let op := ((doc.getD "paths" (Json.obj [])).getD path (Json.obj [])).getD m (Json.obj [])
  let request_parameters := (op.getD "parameters" (Json.arr [])).asList
  let security := (op.getD "security" (Json.arr [])).asList
  let requestBody := op.getD "requestBody" (Json.obj [])
  let contentObj := requestBody.getD "content" (Json.obj [])
  let body_params := contentObj.keys.map (fun bk =>
    Json.obj [("in", .str "body"),
              ("name", .str bk),
              ("description", requestBody.getD "description" .null),
              ("required", requestBody.getD "required" .null),
              ("schema", _get_param_definition_schema doc (contentObj.getD bk .null))])
  let responses' := _get_response_definition_schema doc (op.getD "responses" (Json.obj []))
  let op' := if op.hasKey "responses" then op.objSet "responses" responses' else op
  let op'' :=
    if op'.hasKey "parameters" then
      op'.objSet "parameters" (.arr (request_parameters ++ body_params))
    else op'
  let doc' := doc.objSet "paths" ((doc.getD "paths" (Json.obj [])).objSet path
    (((doc.getD "paths" (Json.obj [])).getD path (Json.obj [])).objSet m op''))
  (doc', { http_method := m, path := path,
           request_params := request_parameters ++ body_params,
           response_params := responses',
           path_params := path_params,
           body_params := body_params,
           security := security })

/-- The path-level loop body of get_request_response_params: iterates the
keys of one path item, keeping only recognized verbs, threading the mutated
document tree. -/
def processPath (acc : Json × List EndpointRecord) (path : String) :
    Json × List EndpointRecord :=
  let pathItem := (acc.1.getD "paths" (Json.obj [])).getD path (Json.obj [])
  let path_params := (pathItem.getD "parameters" (Json.arr [])).asList
  pathItem.keys.foldl (fun acc2 m =>
    if m ∈ allowed_http_methods then
      let step := processOperation acc2.1 path m path_params
      (step.1, acc2.2 ++ [step.2])
    else acc2) acc

/-- Embeds get_request_response_params (openapi.py lines 141-212), returning
both the endpoint records and the document tree as left behind by the
source's in-place writes. -/
def _get_request_response_params (doc : Json) : Json × List EndpointRecord :=
  (doc.getD "paths" (Json.obj [])).keys.foldl processPath (doc, [])

/-- Embeds get_security_schemes (openapi.py lines 214-226). -/
def _get_security_schemes (doc : Json) : Json :=
  (doc.getD "components" (Json.obj [])).getD "securitySchemes" (Json.obj [])

/-- The state an OpenAPIv3Parser instance exposes to the test generator. -/
structure ParserState where
  http_scheme : String := "http"
  host : String := ""
  api_base_path : String := ""
  base_url : String := ""
  is_v3 : Bool := true
  hosts : List HostInfo := []
  request_response_params : List EndpointRecord := []
  security_schemes : Json := Json.obj []
  doc_after : Json := Json.null
deriving DecidableEq, Inhabited

/-- Embeds the OpenAPIv3Parser constructor (openapi.py lines 18-44):
dialect check, scheme computation, host extraction, host data adoption from
the first server (overwriting the scheme computed by get_scheme), parameter
extraction and security scheme lookup.  Exceptions become error results;
doc_after records the document tree after the constructor's in-place
writes. -/
def parseOpenAPIv3 (doc : Json) : Except String ParserState :=
  if !is_v3_doc doc then .error "Invalid OAS v3 file"
  else
    match _populate_hosts doc with
    | .error e => .error e
    | .ok hosts =>
      match hosts with
      | [] => .error "Host is invalid or not found"
      | h :: _ =>
        let step := _get_request_response_params doc
        .ok { http_scheme := h.scheme,
              host := h.host ++ ":" ++ toString h.port,
              api_base_path := h.basepath,
              base_url := h.scheme ++ "://" ++ h.host ++ ":" ++ toString h.port,
              is_v3 := true,
              hosts := hosts,
              request_response_params := step.2,
              security_schemes := _get_security_schemes step.1,
              doc_after := step.1 }

end OpenAPIv3Parser

/-- A test task dict as built by the TestGenerator methods
(src/offat/tester/generator.py).  Keys that a given stage has not yet set
are modelled as none or as the empty default; the fuzz stage fills the base
fields, each generator operation fills the rest. -/
structure TaskRec where
  url : String := ""
  endpoint : String := ""
  method : String := ""
  body_params : List Json := []
  query_params : List Json := []
  path_params : List Json := []
  security : List Json := []
  test_name : Option String := none
  malicious_payload : Option Json := none
  success_codes : Option (List Int) := none
  response_filter : Option String := none
  response_match_regex : Option String := none
  vuln_details : Option (String × String) := none
  args_pass : List Json := []
  kwargs_pass : List (String × Json) := []
deriving DecidableEq, Inhabited

/-- A malicious payload together with the response-matching regex, as the
entries of the payloads_data lists in generator.py. -/
structure PayloadData where
  request_payload : String
  response_match_regex : Option String := none
deriving DecidableEq, Inhabited

namespace TestGenerator

open OpenAPIv3Parser (ParserState)

/-- Whether a parameter record sits at the given request position, as
tested by the in-position filters of generator.py. -/
def paramIn (pos : String) (p : Json) : Bool :=
  p.getD "in" .null == Json.str pos

/-- One iteration of the endpoint loop of fuzz_request_params
(generator.py lines 139-208). -/
def fuzz_one (pstate : ParserState) (r : EndpointRecord) : TaskRec :=
  let request_params := fill_params r.request_params pstate.is_v3
  let request_body_params := request_params.filter (paramIn "body")
  let request_query_params := request_params.filter (paramIn "query")
  let path_params_in_body := request_params.filter (paramIn "path")
  let path_params0 := fill_params r.path_params pstate.is_v3
  let path_params := get_unique_params path_params0 path_params_in_body
  let endpoint_path := path_params.foldl (fun s p =>
    pyReplace s ("\x7b" ++ (p.getD "name" .null).pyStr ++ "\x7d") ((p.getD "value" .null).pyStr)) r.path
  { url := join_uri_path [pstate.base_url, pstate.api_base_path, endpoint_path],
    endpoint := join_uri_path [pstate.api_base_path, endpoint_path],
    method := pyUpper r.http_method,
    body_params := request_body_params,
    query_params := request_query_params,
    path_params := path_params,
    security := r.security }

/-- Embeds fuzz_request_params (generator.py lines 139-208). -/
def fuzz_request_params (pstate : ParserState) : List TaskRec :=
  pstate.request_response_params.map (fuzz_one pstate)

/-- One group of the per-endpoint index built by
check_unsupported_http_methods (generator.py lines 76-103). -/
structure MethodGroup where
  endpoints : List TaskRec := []
  methods : List String := []
  body_params : List Json := []
  query_params : List Json := []
  path_params : List Json := []
deriving DecidableEq, Inhabited

/-- Adds one fuzzed endpoint to a group: the loop body of lines 91-103. -/
def addToGroup (g : MethodGroup) (t : TaskRec) : MethodGroup :=
  { endpoints := g.endpoints ++ [t],
    methods := if pyLower t.method ∈ g.methods then g.methods else g.methods ++ [pyLower t.method],
    body_params := g.body_params ++ t.body_params,
    query_params := g.query_params ++ t.query_params,
    path_params := g.path_params ++ t.path_params }

/-- Inserts one fuzzed endpoint into the index, with dict semantics: update
the existing entry in place, or append a fresh one. -/
def updateIndex (idx : List (String × MethodGroup)) (t : TaskRec) :
    List (String × MethodGroup) :=
  if idx.any (fun kv => kv.1 = t.endpoint) then
    idx.map (fun kv => if kv.1 = t.endpoint then (kv.1, addToGroup kv.2 t) else kv)
  else
    idx ++ [(t.endpoint, addToGroup {} t)]

/-- The endpoints_index dict of check_unsupported_http_methods. -/
def build_index (ts : List TaskRec) : List (String × MethodGroup) :=
  ts.foldl updateIndex []

/-- The six verbs the unsupported-method check probes (line 112). -/
def six_http_methods : List String := ["get", "post", "put", "patch", "delete", "options"]

/-- Default success codes of check_unsupported_http_methods. -/
def unsupported_success_codes : List Int := [200, 201, 301, 302]

/-- Embeds check_unsupported_http_methods (generator.py lines 46-137). -/
def check_unsupported_http_methods (pstate : ParserState) (success_codes : List Int)
    (args : List Json) (kwargs : List (String × Json)) : List TaskRec :=
  (build_index (fuzz_request_params pstate)).flatMap (fun eg =>
    let url := join_uri_path [pstate.base_url, eg.1]
    (six_http_methods.filter (fun m => m ∉ eg.2.methods)).map (fun m =>
      { test_name := some "UnSupported HTTP Method Check",
        url := url,
        endpoint := eg.1,
        method := pyUpper m,
        malicious_payload := some (.arr []),
        args_pass := args,
        kwargs_pass := kwargs,
        vuln_details := some
          ("Endpoint performs HTTP verb which is not documented",
           "Endpoint doesn't perform any HTTP verb which is not documented"),
        body_params := eg.2.body_params,
        query_params := eg.2.query_params,
        path_params := eg.2.path_params,
        success_codes := some success_codes,
        response_filter := some STATUS_CODE_FILTER }))

/-- Embeds inject_payload_in_params (generator.py lines 210-231): operates
on a deep copy and overwrites the value of every parameter whose declared
top-level type is string. -/
def inject_payload_in_params (request_params : List Json) (payload : String) : List Json :=
  request_params.map (fun p =>
    if p.getD "type" .null == Json.str "string" then p.objSet "value" (.str payload)
    else p)

/-- The five canonical SQLi payloads (generator.py lines 264-270). -/
def basic_sqli_payloads : List String :=
  ["' OR 1=1 ;--",
   "' UNION SELECT 1,2,3 -- -",
   "' OR '1'='1--",
   "' AND (SELECT * FROM (SELECT(SLEEP(5)))abc)",
   "' AND SLEEP(5) --"]

/-- The in-place update one sqli_fuzz_params_test iteration performs on a
fuzzed request object (generator.py lines 277-307). -/
def sqli_step (success_codes : List Int) (args : List Json)
    (kwargs : List (String × Json)) (payload : String) (obj : TaskRec) : TaskRec :=
  { obj with
    test_name := some "SQLi Test",
    body_params := inject_payload_in_params obj.body_params payload,
    query_params := inject_payload_in_params obj.query_params payload,
    args_pass := args,
    kwargs_pass := kwargs,
    malicious_payload := some (.str payload),
    vuln_details := some
      ("One or more parameter is vulnerable to SQL Injection Attack",
       "Parameters are not vulnerable to SQLi Payload"),
    success_codes := some success_codes,
    response_filter := some STATUS_CODE_FILTER }

/-- Embeds sqli_fuzz_params_test (generator.py lines 233-310).  The source
mutates the shared fuzzed request objects across payload iterations and
appends a deep copy of each; the fold threads that shared state. -/
def sqli_fuzz_params_test (pstate : ParserState) (success_codes : List Int)
    (args : List Json) (kwargs : List (String × Json)) : List TaskRec :=
  (basic_sqli_payloads.foldl (fun acc payload =>
    let objs := acc.1.map (sqli_step success_codes args kwargs payload)
    (objs, acc.2 ++ objs)) (fuzz_request_params pstate, [])).2

/-- The merged, filled path-parameter list one sqli_in_uri_path_fuzz_test
iteration computes for a record (generator.py lines 361-379); the source
extends the record's path_params list in place, so the record evolves. -/
def path_sqli_params (pstate : ParserState) (r : EndpointRecord) : List Json :=
  let request_params := fill_params r.request_params pstate.is_v3
  let path_params_in_body := request_params.filter (paramIn "path")
  fill_params (r.path_params ++ path_params_in_body) pstate.is_v3

/-- The task one sqli_in_uri_path_fuzz_test iteration emits for one record
and one payload (generator.py lines 359-414). -/
def mk_path_sqli_task (pstate : ParserState) (success_codes : List Int)
    (args : List Json) (kwargs : List (String × Json)) (payload : String)
    (r : EndpointRecord) : TaskRec :=
  let request_params := fill_params r.request_params pstate.is_v3
  let request_body_params := request_params.filter (paramIn "body")
  let path_params := path_sqli_params pstate r
  let endpoint_path := path_params.foldl (fun s p =>
    pyReplace s ("\x7b" ++ (p.getD "name" .null).pyStr ++ "\x7d") payload) r.path
  let request_query_params := request_params.filter (paramIn "query")
  { test_name := some "SQLi Test in URI Path with Fuzzed Params",
    url := join_uri_path [pstate.base_url, pstate.api_base_path, endpoint_path],
    endpoint := join_uri_path [pstate.api_base_path, endpoint_path],
    method := pyUpper r.http_method,
    body_params := request_body_params,
    query_params := request_query_params,
    path_params := path_params,
    malicious_payload := some (.str payload),
    args_pass := args,
    kwargs_pass := kwargs,
    vuln_details := some
      ("Endpoint might be vulnerable to SQli", "Endpoint is not vulnerable to SQLi"),
    success_codes := some success_codes,
    response_filter := some STATUS_CODE_FILTER }

/-- The in-place record mutation of one sqli_in_uri_path_fuzz_test
iteration: the record's path_params list is extended with the in-path
request parameters (line 378 mutates the list obtained from the record). -/
def path_sqli_record_after (pstate : ParserState) (r : EndpointRecord) : EndpointRecord :=
  let request_params := fill_params r.request_params pstate.is_v3
  { r with path_params := r.path_params ++ request_params.filter (paramIn "path") }

/-- Embeds sqli_in_uri_path_fuzz_test (generator.py lines 312-416),
threading the in-place record mutations across payload iterations. -/
def sqli_in_uri_path_fuzz_test (pstate : ParserState) (success_codes : List Int)
    (args : List Json) (kwargs : List (String × Json)) : List TaskRec :=
  let eps := pstate.request_response_params.filter (fun r => substrB "/\x7b" r.path)
  (basic_sqli_payloads.foldl (fun acc payload =>
    let tasks := acc.1.map (mk_path_sqli_task pstate success_codes args kwargs payload)
    let recs := acc.1.map (path_sqli_record_after pstate)
    (recs, acc.2 ++ tasks)) (eps, [])).2

/-- Default success codes shared by the BOLA, BOPLA and missing-auth
generators. -/
def bola_success_codes : List Int := [200, 201, 301]

/-- Embeds bola_fuzz_path_test (generator.py lines 418-510). -/
def bola_fuzz_path_test (pstate : ParserState) (success_codes : List Int)
    (args : List Json) (kwargs : List (String × Json)) : List TaskRec :=
  (pstate.request_response_params.filter (fun r => substrB "/\x7b" r.path)).map (fun r =>
    let request_params := fill_params r.request_params pstate.is_v3
    let request_body_params := request_params.filter (paramIn "body")
    let path_params_in_body := request_params.filter (paramIn "path")
    let path_params0 := fill_params r.path_params pstate.is_v3
    let path_params := get_unique_params path_params_in_body path_params0
    let endpoint_path := path_params.foldl (fun s p =>
      pyReplace s ("\x7b" ++ (p.getD "name" .null).pyStr ++ "\x7d") ((p.getD "value" .null).pyStr)) r.path
    let request_query_params := request_params.filter (paramIn "query")
    { test_name := some "BOLA Path Test with Fuzzed Params",
      url := join_uri_path [pstate.base_url, pstate.api_base_path, endpoint_path],
      endpoint := join_uri_path [pstate.api_base_path, endpoint_path],
      method := pyUpper r.http_method,
      body_params := request_body_params,
      query_params := request_query_params,
      path_params := path_params,
      malicious_payload := some (.arr path_params),
      args_pass := args,
      kwargs_pass := kwargs,
      vuln_details := some
        ("Endpoint might be vulnerable to BOLA", "Endpoint is not vulnerable to BOLA"),
      success_codes := some success_codes,
      response_filter := some STATUS_CODE_FILTER })

/-- Embeds bola_fuzz_trailing_slash_path_test (generator.py lines
512-606). -/
def bola_fuzz_trailing_slash_path_test (pstate : ParserState) (success_codes : List Int)
    (args : List Json) (kwargs : List (String × Json)) : List TaskRec :=
  pstate.request_response_params.map (fun r =>
    let base := fuzz_one pstate r
    let url0 := base.url
    let url :=
      if url0.data.getLast? = some '/' then url0 ++ toString generate_random_int
      else url0 ++ "/" ++ toString generate_random_int
    { base with
      security := [],
      test_name := some "BOLA Path Trailing Slash Test",
      url := url,
      malicious_payload := some (.num generate_random_int),
      args_pass := args,
      kwargs_pass := kwargs,
      vuln_details := some
        ("Endpoint might be vulnerable to BOLA", "Endpoint might not vulnerable to BOLA"),
      success_codes := some success_codes,
      response_filter := some STATUS_CODE_FILTER })

/-- Embeds inject_response_params (generator.py lines 608-635): flattens
declared response schema properties into synthetic body parameter records
and fuzzes them. -/
def inject_response_params (response_params : Json) (isV3 : Bool) : List Json :=
  let params := response_params.kvsOf.flatMap (fun skv =>
    ((skv.2.getD "schema" (Json.obj [])).getD "properties" (Json.obj [])).kvsOf.map
      (fun pkv =>
        ((pkv.2.objSet "name" (.str pkv.1)).objSet "in" (.str "body")).objSet
          "status_code" (.str skv.1)))
  fill_params params isV3

/-- Embeds bopla_fuzz_test (generator.py lines 637-733). -/
def bopla_fuzz_test (pstate : ParserState) (success_codes : List Int)
    (args : List Json) (kwargs : List (String × Json)) : List TaskRec :=
  pstate.request_response_params.filterMap (fun r =>
    let request_params := fill_params r.request_params pstate.is_v3
    let request_body_params := request_params.filter (paramIn "body")
    let request_query_params := request_params.filter (paramIn "query")
    let path_params_in_body := request_params.filter (paramIn "path")
    if request_body_params.isEmpty && request_query_params.isEmpty then none
    else
      let path_params0 := fill_params r.path_params pstate.is_v3
      let path_params := get_unique_params path_params_in_body path_params0
      let endpoint_path := path_params.foldl (fun s p =>
        pyReplace s ("\x7b" ++ (p.getD "name" .null).pyStr ++ "\x7d") ((p.getD "value" .null).pyStr)) r.path
      let response_body_params := inject_response_params r.response_params pstate.is_v3
      some
        { test_name := some "BOPLA Test",
          url := join_uri_path [pstate.base_url, pstate.api_base_path, endpoint_path],
          endpoint := join_uri_path [pstate.api_base_path, endpoint_path],
          method := pyUpper r.http_method,
          body_params := request_body_params ++ response_body_params,
          query_params := request_query_params,
          path_params := path_params,
          malicious_payload := some (.arr response_body_params),
          args_pass := args,
          kwargs_pass := kwargs,
          vuln_details := some
            ("Endpoint might be vulnerable to BOPLA",
             "Endpoint might not vulnerable to BOPLA"),
          success_codes := some success_codes,
          response_filter := some STATUS_CODE_FILTER })

/-- The in-place update one generate_injection_fuzz_params_test iteration
performs on a fuzzed request object (generator.py lines 816-838). -/
def injection_step (test_name : String) (vuln_details : String × String)
    (args : List Json) (kwargs : List (String × Json)) (pd : PayloadData)
    (obj : TaskRec) : TaskRec :=
  { obj with
    test_name := some test_name,
    body_params := inject_payload_in_params obj.body_params pd.request_payload,
    query_params := inject_payload_in_params obj.query_params pd.request_payload,
    args_pass := args,
    kwargs_pass := kwargs,
    malicious_payload := some (.str pd.request_payload),
    vuln_details := some vuln_details,
    response_filter := some BODY_REGEX_FILTER,
    response_match_regex := pd.response_match_regex }

/-- Embeds generate_injection_fuzz_params_test (generator.py lines
776-842): endpoints whose fuzzed body and query parameter lists are both
empty are skipped; the shared request objects are mutated across payload
iterations and a deep copy of each non-skipped one is emitted. -/
def generate_injection_fuzz_params_test (pstate : ParserState) (test_name : String)
    (vuln_details : String × String) (payloads_data : List PayloadData)
    (args : List Json) (kwargs : List (String × Json)) : List TaskRec :=
  (payloads_data.foldl (fun acc pd =>
    let objs := acc.1.map (fun o =>
      if o.body_params.isEmpty && o.query_params.isEmpty then o
      else injection_step test_name vuln_details args kwargs pd o)
    (objs, acc.2 ++ objs.filter (fun o =>
      !(o.body_params.isEmpty && o.query_params.isEmpty))))
    (fuzz_request_params pstate, [])).2

/-- The OS command injection payload catalog (generator.py lines 864-869). -/
def os_command_payloads : List PayloadData :=
  [{ request_payload := "cat /etc/passwd", response_match_regex := some "root:.*" },
   { request_payload := "cat /etc/shadow", response_match_regex := some "root:.*" },
   { request_payload := "ls -la", response_match_regex := some "total\\s\\d+" }]

/-- Embeds os_command_injection_fuzz_params_test (generator.py lines
844-881). -/
def os_command_injection_fuzz_params_test (pstate : ParserState) : List TaskRec :=
  generate_injection_fuzz_params_test pstate "OS Command Injection Test"
    ("One or more parameter is vulnerable to OS Command Injection Attack",
     "Parameters are not vulnerable to OS Command Injection")
    os_command_payloads [] []

/-- The XSS/HTML injection payload catalog (generator.py lines 903-916). -/
def xss_payloads : List PayloadData :=
  [{ request_payload := "<script>confirm(1)</script>",
     response_match_regex := some "<script[^>]*>.*<\\/script>" },
   { request_payload := "<script>alert(1)</script>",
     response_match_regex := some "<script[^>]*>.*<\\/script>" },
   { request_payload := "<img src=x onerror='javascript:confirm(1),>",
     response_match_regex := some "<img[^>]*>" }]

/-- Embeds xss_html_injection_fuzz_params_test (generator.py lines
883-928). -/
def xss_html_injection_fuzz_params_test (pstate : ParserState) : List TaskRec :=
  generate_injection_fuzz_params_test pstate "XSS/HTML Injection Test"
    ("One or more parameter is vulnerable to XSS/HTML Injection Attack",
     "Parameters are not vulnerable to XSS/HTML Injection Attack")
    xss_payloads [] []

/-- The SSTI payload catalog (generator.py lines 947-972). -/
def ssti_payloads : List PayloadData :=
  [{ request_payload := "$\x7b7777+99999\x7d", response_match_regex := some "107776" },
   { request_payload := "\x7b\x7b7*'7'\x7d\x7d", response_match_regex := some "49" },
   { request_payload := "\x7b\x7b7*'7'\x7d\x7d", response_match_regex := some "7777777" },
   { request_payload := "\x7b\x7b '<script>confirm(1337)</script>' \x7d\x7d",
     response_match_regex := some "<script>confirm(1337)</script>" },
   { request_payload := "\x7b\x7b '<script>confirm(1337)</script>' | safe \x7d\x7d",
     response_match_regex := some "<script>confirm(1337)</script>" },
   { request_payload := "\x7b\x7b'owasp offat'.toUpperCase()\x7d\x7d",
     response_match_regex := some "OWASP OFFAT" },
   { request_payload := "\x7b\x7b'owasp offat' | upper \x7d\x7d",
     response_match_regex := some "OWASP OFFAT" },
   { request_payload := "<%= system('cat /etc/passwd') %>",
     response_match_regex := some "root:.*" },
   { request_payload := "*\x7b7*7\x7d", response_match_regex := some "49" }]

/-- Embeds ssti_fuzz_params_test (generator.py lines 930-984). -/
def ssti_fuzz_params_test (pstate : ParserState) : List TaskRec :=
  generate_injection_fuzz_params_test pstate "SSTI Test"
    ("One or more parameter is vulnerable to SSTI Attack",
     "Parameters are not vulnerable to SSTI Attack")
    ssti_payloads [] []

/-- The header-stripping write of missing_auth_fuzz_test (generator.py
lines 1016-1017): the Authorization and X-Api-Key entries are popped from
the headers object reachable through the passthrough kwargs; since that
object is the caller's mapping, the update is visible to the caller. -/
def strip_auth_headers (kwargs : List (String × Json)) : List (String × Json) :=
  kwargs.map (fun kv =>
    if kv.1 = "headers" then ((kv.1, (kv.2.objDrop "Authorization").objDrop "X-Api-Key"))
    else kv)

/-- Embeds missing_auth_fuzz_test (generator.py lines 986-1084).  Returns
the emitted tasks together with the post-call state of the passthrough
kwargs (whose headers object the source mutates in place). -/
def missing_auth_fuzz_test (pstate : ParserState) (success_codes : List Int)
    (args : List Json) (kwargs : List (String × Json)) :
    List TaskRec × List (String × Json) :=
  let kwargs2 := strip_auth_headers kwargs
  let eps := pstate.request_response_params.filter (fun r =>
    !r.security.isEmpty && r.security != [Json.obj []])
  (eps.map (fun r =>
    let request_params := fill_params r.request_params pstate.is_v3
    let request_body_params := request_params.filter (paramIn "body")
    let path_params_in_body := request_params.filter (paramIn "path")
    let path_params0 := fill_params r.path_params pstate.is_v3
    let path_params := get_unique_params path_params_in_body path_params0
    let endpoint_path := path_params.foldl (fun s p =>
      pyReplace s ("\x7b" ++ (p.getD "name" .null).pyStr ++ "\x7d") ((p.getD "value" .null).pyStr)) r.path
    let request_query_params := request_params.filter (paramIn "query")
    { test_name := some "Missing Authentication Test with Fuzzed Params",
      url := join_uri_path [pstate.base_url, pstate.api_base_path, endpoint_path],
      endpoint := join_uri_path [pstate.api_base_path, endpoint_path],
      method := pyUpper r.http_method,
      body_params := request_body_params,
      query_params := request_query_params,
      path_params := path_params,
      malicious_payload := some (.str "Security Payload Missing"),
      args_pass := args,
      kwargs_pass := kwargs2,
      vuln_details := some
        ("Endpoint fails to implement security authentication as defined",
         "Endpoint implements security authentication as defined"),
      success_codes := some success_codes,
      response_filter := some STATUS_CODE_FILTER }), kwargs2)

end TestGenerator

/-- A string-typed query parameter record, declared v2-style with the type
at the top level. -/
def qparamS : Json :=
  .obj [("name", .str "q"), ("in", .str "query"), ("type", .str "string")]

/-- An integer-typed query parameter record. -/
def qparamI : Json :=
  .obj [("name", .str "n"), ("in", .str "query"), ("type", .str "integer")]

/-- An integer-typed path parameter record named id. -/
def pparam : Json :=
  .obj [("name", .str "id"), ("in", .str "path"), ("type", .str "integer")]

/-- An endpoint with one string query parameter and one path parameter. -/
def recA : EndpointRecord :=
  { http_method := "get", path := "/items/\x7bid\x7d",
    request_params := [qparamS], path_params := [pparam] }

/-- An endpoint declaring no parameters at all. -/
def recNoParams : EndpointRecord := { http_method := "get", path := "/a" }

/-- An endpoint whose only parameter is integer-typed. -/
def recIntOnly : EndpointRecord :=
  { http_method := "get", path := "/search", request_params := [qparamI] }

/-- An endpoint with a raw path distinct from recA's that materializes to
the same endpoint string once the path placeholder is fuzzed. -/
def recB : EndpointRecord :=
  { http_method := "post", path := "/items/test", request_params := [qparamI] }

/-- An endpoint documenting a security requirement. -/
def recSec : EndpointRecord :=
  { http_method := "get", path := "/private",
    security := [Json.obj [("bearerAuth", .arr [])]] }

/-- Parser state exposing recA. -/
def pstateA : OpenAPIv3Parser.ParserState :=
  { base_url := "http://a.com:80", request_response_params := [recA] }

/-- Parser state exposing the parameterless endpoint. -/
def pstateNP : OpenAPIv3Parser.ParserState :=
  { base_url := "http://a.com:80", request_response_params := [recNoParams] }

/-- Parser state exposing the integer-only endpoint. -/
def pstateInt : OpenAPIv3Parser.ParserState :=
  { base_url := "http://a.com:80", request_response_params := [recIntOnly] }

/-- Parser state exposing two endpoints with distinct raw paths that
materialize to the same endpoint string. -/
def pstateAB : OpenAPIv3Parser.ParserState :=
  { base_url := "http://a.com:80", request_response_params := [recA, recB] }

/-- Parser state exposing the secured endpoint. -/
def pstateSec : OpenAPIv3Parser.ParserState :=
  { base_url := "http://a.com:80", request_response_params := [recSec] }

/-- Caller-supplied passthrough kwargs carrying an Authorization header. -/
def auth_kwargs : List (String × Json) :=
  [("headers", .obj [("Authorization", .str "Bearer token"), ("Other", .str "v")])]

/-- A v3 document declaring one path with a get and a patch operation. -/
def docC1 : Json := .obj [
  ("openapi", .str "3.0.0"),
  ("servers", .arr [.obj [("url", .str "http://a.com")]]),
  ("paths", .obj [("/pets", .obj [("get", .obj []), ("patch", .obj [])])])]

/-- A v3 document whose response schema holds an internal reference. -/
def docC3 : Json := .obj [
  ("openapi", .str "3.0.0"),
  ("servers", .arr [.obj [("url", .str "http://a.com")]]),
  ("paths", .obj [("/a", .obj [("get", .obj [
    ("responses", .obj [("200", .obj [("content", .obj [("application/json", .obj [
      ("schema", .obj [("$ref", .str "#/components/schemas/X")])])])])])])])]),
  ("components", .obj [("schemas", .obj [("X", .obj [("type", .str "object")])])])]

/-- A v3 document declaring an http server first and an https server
second. -/
def docC7 : Json := .obj [
  ("openapi", .str "3.0.0"),
  ("servers", .arr [.obj [("url", .str "http://a.com")],
                    .obj [("url", .str "https://b.com")]]),
  ("paths", .obj [])]

/-- The parser state docC7 parses to. -/
def stC7 : OpenAPIv3Parser.ParserState :=
  { http_scheme := "http", host := "a.com:80", api_base_path := "",
    base_url := "http://a.com:80", is_v3 := true,
    hosts := [{ scheme := "http", host := "a.com", port := 80, basepath := "" },
              { scheme := "https", host := "b.com", port := 443, basepath := "" }],
    request_response_params := [], security_schemes := Json.obj [],
    doc_after := docC7 }

/-- A v3 document with no servers entry. -/
def docNoServers : Json := .obj [
  ("openapi", .str "3.0.0"),
  ("paths", .obj [])]

/-- Documented methods of one path of a document, in the claim's sense: the
keys of the path item that name one of the six probed HTTP verbs. -/
def documented_methods_of (doc : Json) (path : String) : List String :=
  (((doc.getD "paths" (Json.obj [])).getD path (Json.obj []))).keys.filter
    (fun m => m ∈ TestGenerator.six_http_methods)

/-- Descent through a document along a path of keys, defined when every key
exists. -/
def Json.atPath? : Json → List String → Option Json
  | j, [] => some j
  | j, k :: ks =>
    match j.getKey? k with
    | some v => Json.atPath? v ks
    | none => none

/-- An endpoint with a get operation and one string query parameter. -/
def recC : EndpointRecord :=
  { http_method := "get", path := "/items", request_params := [qparamS] }

/-- An endpoint with a post operation on the same path as recC. -/
def recD : EndpointRecord :=
  { http_method := "post", path := "/items", request_params := [qparamI] }

/-- Parser state exposing two operations that share one endpoint string. -/
def pstateCD : OpenAPIv3Parser.ParserState :=
  { base_url := "http://a.com:80", request_response_params := [recC, recD] }

/-- A descriptor carries exactly one operative evaluation field: the
status-code filter with success codes and no regex, or the body-regex
filter with a regex and no success codes. -/
def operative (t : TaskRec) : Prop :=
  (t.response_filter = some STATUS_CODE_FILTER ∧ t.success_codes.isSome
     ∧ t.response_match_regex = none) ∨
  (t.response_filter = some BODY_REGEX_FILTER ∧ t.response_match_regex.isSome
     ∧ t.success_codes = none)

theorem Json.lookup_objSetList_self (kvs : List (String × Json)) (k : String) (v : Json) :
    (Json.objSetList kvs k v).lookup k = some v := by
  induction kvs with
  | nil => simp [Json.objSetList]
  | cons kv rest ih =>
    by_cases hk : kv.1 = k
    · simp [Json.objSetList, hk, List.lookup]
    · have hbeq : (k == kv.1) = false := by simp [Ne.symm hk]
      simp [Json.objSetList, hk, List.lookup, hbeq, ih]

theorem Json.getKey?_objSet_self (kvs : List (String × Json)) (k : String) (v : Json) :
    ((Json.obj kvs).objSet k v).getKey? k = some v := by
  simp [Json.objSet, Json.getKey?, Json.lookup_objSetList_self]

theorem Json.objSetList_objSetList (kvs : List (String × Json)) (k : String) (x y : Json) :
    Json.objSetList (Json.objSetList kvs k x) k y = Json.objSetList kvs k y := by
  induction kvs with
  | nil => simp [Json.objSetList]
  | cons kv rest ih =>
    by_cases hk : kv.1 = k
    · simp [Json.objSetList, hk]
    · simp [Json.objSetList, hk, ih]

theorem Json.objSet_objSet (j : Json) (k : String) (x y : Json) :
    (j.objSet k x).objSet k y = j.objSet k y := by
  cases j <;> simp [Json.objSet, Json.objSetList_objSetList]

theorem Json.lookup_filter_drop_self (k : String) (kvs : List (String × Json)) :
    (kvs.filter (fun kv => kv.1 ≠ k)).lookup k = none := by
  induction kvs with
  | nil => rfl
  | cons kv rest ih =>
    by_cases hk : kv.1 = k
    · simpa [List.filter_cons, hk] using ih
    · have hbeq : (k == kv.1) = false := by simp [Ne.symm hk]
      simpa [List.filter_cons, hk, List.lookup, hbeq] using ih

theorem Json.getKey?_objDrop_self (j : Json) (k : String) :
    (j.objDrop k).getKey? k = none := by
  cases j with
  | obj kvs => exact Json.lookup_filter_drop_self k kvs
  | null => rfl
  | bool b => rfl
  | num n => rfl
  | str s => rfl
  | arr xs => rfl

theorem Json.lookup_filter_drop_ne (k k' : String) (h : k' ≠ k)
    (kvs : List (String × Json)) :
    (kvs.filter (fun kv => kv.1 ≠ k)).lookup k' = kvs.lookup k' := by
  induction kvs with
  | nil => rfl
  | cons kv rest ih =>
    by_cases hk : kv.1 = k
    · have hbeq : (k' == kv.1) = false := by simp [hk, h]
      have hbeq2 : (k' == k) = false := by simp [h]
      simpa [List.filter_cons, hk, List.lookup, hbeq, hbeq2] using ih
    · by_cases hkv : k' = kv.1
      · simp [List.filter_cons, hk, List.lookup, hkv]
      · have hbeq : (k' == kv.1) = false := by simp [hkv]
        simpa [List.filter_cons, hk, List.lookup, hbeq] using ih

theorem Json.getKey?_objDrop_ne (j : Json) (k k' : String) (h : k' ≠ k) :
    (j.objDrop k).getKey? k' = j.getKey? k' := by
  cases j with
  | obj kvs => exact Json.lookup_filter_drop_ne k k' h kvs
  | null => rfl
  | bool b => rfl
  | num n => rfl
  | str s => rfl
  | arr xs => rfl

theorem replL_nil_pat (repl : List Char) : ∀ s, replL [] repl s = s := by
  intro s
  induction s with
  | nil => simp [replL]
  | cons c rest ih => simp [replL, ih]

theorem repl_infix_replL (pat repl : List Char) (hp : pat ≠ []) :
    ∀ s, pat <:+: s → repl <:+: replL pat repl s := by
  intro s
  induction s using replL.induct pat repl with
  | case1 =>
    intro h
    exact absurd (List.eq_nil_of_infix_nil h) hp
  | case2 c rest hcond ih =>
    intro _
    rw [show replL pat repl (c :: rest)
          = repl ++ replL pat repl (rest.drop (pat.length - 1)) by
        rw [replL]; exact if_pos hcond]
    exact (List.prefix_append repl _).isInfix
  | case3 c rest hcond ih =>
    intro h
    rw [show replL pat repl (c :: rest) = c :: replL pat repl rest by
        rw [replL]; exact if_neg hcond]
    rcases List.infix_cons_iff.mp h with hpre | hinf
    · exact absurd ⟨hp, List.isPrefixOf_iff_prefix.mpr hpre⟩ hcond
    · exact List.infix_cons (ih hinf)

theorem replL_eq_self (pat repl : List Char) :
    ∀ s, ¬ pat <:+: s → replL pat repl s = s := by
  intro s
  induction s using replL.induct pat repl with
  | case1 => intro _; rw [replL]
  | case2 c rest hcond ih =>
    intro h
    exact absurd (List.isPrefixOf_iff_prefix.mp hcond.2).isInfix h
  | case3 c rest hcond ih =>
    intro h
    rw [show replL pat repl (c :: rest) = c :: replL pat repl rest by
        rw [replL]; exact if_neg hcond,
      ih (fun hinf => h (List.infix_cons hinf))]

theorem payload_infix_replL (pat payload : List Char) (s : List Char)
    (h : payload <:+: s) : payload <:+: replL pat payload s := by
  by_cases hp : pat = []
  · rw [hp, replL_nil_pat]; exact h
  · by_cases hi : pat <:+: s
    · exact repl_infix_replL pat payload hp s hi
    · rw [replL_eq_self pat payload s hi]; exact h

theorem payload_infix_subst_fold (payload : String) (f : Json → String) :
    ∀ (ps : List Json) (s : String), payload.data <:+: s.data →
      payload.data <:+: (ps.foldl (fun t p => pyReplace t (f p) payload) s).data := by
  intro ps
  induction ps with
  | nil => intro s h; simpa using h
  | cons p rest ih =>
    intro s h
    rw [List.foldl_cons]
    exact ih _ (payload_infix_replL (f p).data payload.data s.data h)

theorem infix_dropWhile_slash (p : List Char) (hne : p ≠ []) (hs : '/' ∉ p) :
    ∀ l, p <:+: l → p <:+: l.dropWhile (fun c => c = '/') := by
  intro l
  induction l with
  | nil => intro h; simpa using h
  | cons c t ih =>
    intro h
    by_cases hc : c = '/'
    · subst hc
      rw [List.dropWhile_cons_of_pos (by simp)]
      rcases List.infix_cons_iff.mp h with hpre | hinf
      · exfalso
        cases p with
        | nil => exact hne rfl
        | cons a as =>
          have ha : a = '/' := (List.cons_prefix_cons.mp hpre).1
          exact hs (ha ▸ List.mem_cons_self a as)
      · exact ih hinf
    · rw [List.dropWhile_cons_of_neg (by simpa using hc)]
      exact h

theorem substr_join1_right (p a b : String) (hne : p.data ≠ [])
    (hs : '/' ∉ p.data) (h : p.data <:+: b.data) :
    p.data <:+: (join1 a b).data := by
  have h1 : p.data <:+: b.data.dropWhile (fun c => c = '/') :=
    infix_dropWhile_slash p.data hne hs b.data h
  have h2 : p.data <:+: '/' :: b.data.dropWhile (fun c => c = '/') :=
    List.infix_cons h1
  exact h2.trans (List.suffix_append _ _).isInfix

theorem substr_join_uri_last (p last : String) (parts : List String)
    (hne : p.data ≠ []) (hs : '/' ∉ p.data) (h : p.data <:+: last.data) :
    p.data <:+: (join_uri_path (parts ++ [last])).data := by
  have hlast : (last != "") = true := by
    simp only [bne_iff_ne, ne_eq]
    intro heq
    subst heq
    exact hne (List.eq_nil_of_infix_nil h)
  unfold join_uri_path
  rw [List.filter_append]
  have : List.filter (fun s => s != "") [last] = [last] := by simp [hlast]
  rw [this]
  cases hfp : List.filter (fun s => s != "") parts with
  | nil => simpa using h
  | cons x t =>
    simp only [List.cons_append, List.foldl_cons, List.foldl_append, List.foldl_cons,
      List.foldl_nil]
    exact substr_join1_right p _ last hne hs h

theorem inject_value_of_string_typed (params : List Json) (pl : String) (p : Json)
    (hp : p ∈ TestGenerator.inject_payload_in_params params pl)
    (ht : p.getD "type" .null = .str "string") :
    p.getD "value" .null = .str pl := by
  unfold TestGenerator.inject_payload_in_params at hp
  rcases List.mem_map.mp hp with ⟨q, hq, hpq⟩
  by_cases hqt : q.getD "type" .null = Json.str "string"
  · rw [if_pos (by simp [hqt])] at hpq
    subst hpq
    cases q with
    | obj kvs =>
      simp [Json.getD, Json.getKey?_objSet_self]
    | null => simp [Json.getD, Json.getKey?] at hqt
    | bool b => simp [Json.getD, Json.getKey?] at hqt
    | num n => simp [Json.getD, Json.getKey?] at hqt
    | str s => simp [Json.getD, Json.getKey?] at hqt
    | arr xs => simp [Json.getD, Json.getKey?] at hqt
  · rw [if_neg (by simp [hqt])] at hpq
    subst hpq
    exact absurd ht hqt

theorem foldl_acc_mem {γ α β : Type} (step : List γ × List α → β → List γ × List α)
    (P : α → Prop) (Q : γ → Prop) :
    ∀ (bs : List β),
      (∀ s b, b ∈ bs → (∀ o ∈ s.1, Q o) → ∀ o ∈ (step s b).1, Q o) →
      (∀ s b, b ∈ bs → (∀ o ∈ s.1, Q o) → ∀ t ∈ (step s b).2, t ∈ s.2 ∨ P t) →
      ∀ s, (∀ o ∈ s.1, Q o) → (∀ t ∈ s.2, P t) → ∀ t ∈ (bs.foldl step s).2, P t := by
  intro bs
  induction bs with
  | nil =>
    intro _ _ s _ hP t ht
    exact hP t (by simpa using ht)
  | cons b rest ih =>
    intro h1 h2 s hQ hP t ht
    rw [List.foldl_cons] at ht
    refine ih (fun s' b' hb' => h1 s' b' (List.mem_cons_of_mem _ hb'))
      (fun s' b' hb' => h2 s' b' (List.mem_cons_of_mem _ hb'))
      (step s b) (h1 s b (List.mem_cons_self _ _) hQ) ?_ t ht
    intro t' ht'
    rcases h2 s b (List.mem_cons_self _ _) hQ t' ht' with h | h
    · exact hP t' h
    · exact h

theorem mem_updateIndex_ne (idx : List (String × TestGenerator.MethodGroup))
    (t : TaskRec) (e : String) (g : TestGenerator.MethodGroup) (he : e ≠ t.endpoint) :
    ((e, g) ∈ TestGenerator.updateIndex idx t) ↔ (e, g) ∈ idx := by
  unfold TestGenerator.updateIndex
  by_cases hc : (idx.any (fun kv => kv.1 = t.endpoint)) = true
  · rw [if_pos hc]
    constructor
    · intro h
      rcases List.mem_map.mp h with ⟨kv, hkv, hfkv⟩
      by_cases hk : kv.1 = t.endpoint
      · rw [if_pos (by simpa using hk)] at hfkv
        exact absurd ((Prod.mk.injEq _ _ _ _).mp hfkv).1.symm (hk ▸ he)
      · rw [if_neg (by simpa using hk)] at hfkv
        exact hfkv ▸ hkv
    · intro h
      refine List.mem_map.mpr ⟨(e, g), h, ?_⟩
      rw [if_neg (by simpa using he)]
  · rw [if_neg hc]
    rw [List.mem_append]
    constructor
    · rintro (h | h)
      · exact h
      · simp only [List.mem_singleton, Prod.mk.injEq] at h
        exact absurd h.1 he
    · intro h
      exact Or.inl h

theorem mem_updateIndex_eq (idx : List (String × TestGenerator.MethodGroup))
    (t : TaskRec) (g : TestGenerator.MethodGroup) :
    ((t.endpoint, g) ∈ TestGenerator.updateIndex idx t) ↔
      ((∃ g₀, (t.endpoint, g₀) ∈ idx ∧ g = TestGenerator.addToGroup g₀ t) ∨
       ((∀ g₀, (t.endpoint, g₀) ∉ idx) ∧ g = TestGenerator.addToGroup {} t)) := by
  unfold TestGenerator.updateIndex
  by_cases hc : (idx.any (fun kv => kv.1 = t.endpoint)) = true
  · rw [if_pos hc]
    constructor
    · intro h
      rcases List.mem_map.mp h with ⟨kv, hkv, hfkv⟩
      by_cases hk : kv.1 = t.endpoint
      · rw [if_pos (by simpa using hk)] at hfkv
        rcases (Prod.mk.injEq _ _ _ _).mp hfkv with ⟨_, hg⟩
        exact Or.inl ⟨kv.2, by rwa [← hk, Prod.mk.eta], hg.symm⟩
      · rw [if_neg (by simpa using hk)] at hfkv
        exact absurd ((Prod.mk.injEq _ _ _ _).mp hfkv).1 hk
    · rintro (⟨g₀, hg₀, rfl⟩ | ⟨hnone, rfl⟩)
      · refine List.mem_map.mpr ⟨(t.endpoint, g₀), hg₀, ?_⟩
        rw [if_pos (by simp)]
      · exfalso
        rcases List.any_eq_true.mp hc with ⟨kv, hkv, hk⟩
        exact hnone kv.2 (by rwa [← (by simpa using hk : kv.1 = t.endpoint), Prod.mk.eta])
  · rw [if_neg hc]
    rw [List.mem_append]
    have hnone : ∀ g₀, (t.endpoint, g₀) ∉ idx := by
      intro g₀ hg₀
      exact hc (List.any_eq_true.mpr ⟨(t.endpoint, g₀), hg₀, by simp⟩)
    constructor
    · rintro (h | h)
      · exact absurd h (hnone g)
      · simp only [List.mem_singleton, Prod.mk.injEq, true_and] at h
        exact Or.inr ⟨hnone, h⟩
    · rintro (⟨g₀, hg₀, rfl⟩ | ⟨_, rfl⟩)
      · exact absurd hg₀ (hnone g₀)
      · exact Or.inr (by simp)

theorem mem_foldl_updateIndex (ts : List TaskRec) :
    ∀ (idx : List (String × TestGenerator.MethodGroup)) (e : String)
      (g : TestGenerator.MethodGroup),
      ((e, g) ∈ ts.foldl TestGenerator.updateIndex idx) ↔
        ((∃ g₀, (e, g₀) ∈ idx ∧
            g = (ts.filter (fun t => t.endpoint = e)).foldl TestGenerator.addToGroup g₀) ∨
         ((∀ g₀, (e, g₀) ∉ idx) ∧ (∃ t ∈ ts, t.endpoint = e) ∧
            g = (ts.filter (fun t => t.endpoint = e)).foldl TestGenerator.addToGroup {})) := by
  induction ts with
  | nil =>
    intro idx e g
    simp only [List.foldl_nil, List.filter_nil]
    constructor
    · intro h
      exact Or.inl ⟨g, h, rfl⟩
    · rintro (⟨g₀, hg₀, rfl⟩ | ⟨_, ⟨t, ht, _⟩, _⟩)
      · exact hg₀
      · exact absurd ht (List.not_mem_nil t)
  | cons t rest ih =>
    intro idx e g
    rw [List.foldl_cons, ih]
    by_cases he : t.endpoint = e
    · subst he
      have hfil : (t :: rest).filter (fun u => u.endpoint = t.endpoint)
          = t :: rest.filter (fun u => u.endpoint = t.endpoint) := by
        rw [List.filter_cons_of_pos (by simp)]
      rw [hfil]
      simp only [List.foldl_cons]
      constructor
      · rintro (⟨g₁, hg₁, rfl⟩ | ⟨hnone, _, rfl⟩)
        · rcases (mem_updateIndex_eq idx t g₁).mp hg₁ with ⟨g₀, hg₀, rfl⟩ | ⟨hnone, rfl⟩
          · exact Or.inl ⟨g₀, hg₀, rfl⟩
          · exact Or.inr ⟨hnone, ⟨t, List.mem_cons_self _ _, rfl⟩, rfl⟩
        · exfalso
          by_cases hq : ∃ g₀, (t.endpoint, g₀) ∈ idx
          · rcases hq with ⟨g₀, hg₀⟩
            exact hnone (TestGenerator.addToGroup g₀ t)
              ((mem_updateIndex_eq idx t _).mpr (Or.inl ⟨g₀, hg₀, rfl⟩))
          · exact hnone (TestGenerator.addToGroup {} t)
              ((mem_updateIndex_eq idx t _).mpr
                (Or.inr ⟨fun g₀ hg₀ => hq ⟨g₀, hg₀⟩, rfl⟩))
      · rintro (⟨g₀, hg₀, rfl⟩ | ⟨hnone, _, rfl⟩)
        · exact Or.inl ⟨TestGenerator.addToGroup g₀ t,
            (mem_updateIndex_eq idx t _).mpr (Or.inl ⟨g₀, hg₀, rfl⟩), rfl⟩
        · exact Or.inl ⟨TestGenerator.addToGroup {} t,
            (mem_updateIndex_eq idx t _).mpr (Or.inr ⟨hnone, rfl⟩), rfl⟩
    · have hfil : (t :: rest).filter (fun u => u.endpoint = e)
          = rest.filter (fun u => u.endpoint = e) := by
        rw [List.filter_cons_of_neg (by simpa using he)]
      rw [hfil]
      have hmem : ∀ g₀, ((e, g₀) ∈ TestGenerator.updateIndex idx t) ↔ (e, g₀) ∈ idx :=
        fun g₀ => mem_updateIndex_ne idx t e g₀ (fun h => he h.symm)
      constructor
      · rintro (⟨g₁, hg₁, rfl⟩ | ⟨hnone, hex, rfl⟩)
        · exact Or.inl ⟨g₁, (hmem g₁).mp hg₁, rfl⟩
        · refine Or.inr ⟨fun g₀ hg₀ => hnone g₀ ((hmem g₀).mpr hg₀), ?_, rfl⟩
          rcases hex with ⟨u, hu, hue⟩
          exact ⟨u, List.mem_cons_of_mem _ hu, hue⟩
      · rintro (⟨g₀, hg₀, rfl⟩ | ⟨hnone, hex, rfl⟩)
        · exact Or.inl ⟨g₀, (hmem g₀).mpr hg₀, rfl⟩
        · refine Or.inr ⟨fun g₀ hg₀ => hnone g₀ ((hmem g₀).mp hg₀), ?_, rfl⟩
          rcases hex with ⟨u, hu, hue⟩
          cases List.mem_cons.mp hu with
          | inl h => exact absurd (h ▸ hue) he
          | inr h => exact ⟨u, h, hue⟩

theorem mem_build_index (ts : List TaskRec) (e : String) (g : TestGenerator.MethodGroup) :
    ((e, g) ∈ TestGenerator.build_index ts) ↔
      ((∃ t ∈ ts, t.endpoint = e) ∧
       g = (ts.filter (fun t => t.endpoint = e)).foldl TestGenerator.addToGroup {}) := by
  unfold TestGenerator.build_index
  rw [mem_foldl_updateIndex]
  constructor
  · rintro (⟨g₀, hg₀, _⟩ | ⟨_, hex, rfl⟩)
    · exact absurd hg₀ (List.not_mem_nil _)
    · exact ⟨hex, rfl⟩
  · rintro ⟨hex, rfl⟩
    exact Or.inr ⟨fun g₀ hg₀ => List.not_mem_nil _ hg₀, hex, rfl⟩

theorem body_params_foldl_addToGroup :
    ∀ (ts : List TaskRec) (g : TestGenerator.MethodGroup),
      (ts.foldl TestGenerator.addToGroup g).body_params
        = g.body_params ++ ts.flatMap (fun t => t.body_params) := by
  intro ts
  induction ts with
  | nil => intro g; simp
  | cons t rest ih =>
    intro g
    rw [List.foldl_cons, ih]
    simp [TestGenerator.addToGroup]

theorem query_params_foldl_addToGroup :
    ∀ (ts : List TaskRec) (g : TestGenerator.MethodGroup),
      (ts.foldl TestGenerator.addToGroup g).query_params
        = g.query_params ++ ts.flatMap (fun t => t.query_params) := by
  intro ts
  induction ts with
  | nil => intro g; simp
  | cons t rest ih =>
    intro g
    rw [List.foldl_cons, ih]
    simp [TestGenerator.addToGroup]

theorem path_params_foldl_addToGroup :
    ∀ (ts : List TaskRec) (g : TestGenerator.MethodGroup),
      (ts.foldl TestGenerator.addToGroup g).path_params
        = g.path_params ++ ts.flatMap (fun t => t.path_params) := by
  intro ts
  induction ts with
  | nil => intro g; simp
  | cons t rest ih =>
    intro g
    rw [List.foldl_cons, ih]
    simp [TestGenerator.addToGroup]

theorem mem_methods_addToGroup (g : TestGenerator.MethodGroup) (t : TaskRec)
    (m : String) :
    m ∈ (TestGenerator.addToGroup g t).methods
      ↔ m ∈ g.methods ∨ m = pyLower t.method := by
  unfold TestGenerator.addToGroup
  by_cases hm : pyLower t.method ∈ g.methods
  · rw [if_pos hm]
    simp only []
    constructor
    · exact fun h => Or.inl h
    · rintro (h | rfl)
      · exact h
      · exact hm
  · rw [if_neg hm]
    simp [List.mem_append, eq_comm]

theorem mem_methods_foldl_addToGroup :
    ∀ (ts : List TaskRec) (g : TestGenerator.MethodGroup) (m : String),
      m ∈ (ts.foldl TestGenerator.addToGroup g).methods
        ↔ m ∈ g.methods ∨ ∃ t ∈ ts, pyLower t.method = m := by
  intro ts
  induction ts with
  | nil => intro g m; simp
  | cons t rest ih =>
    intro g m
    rw [List.foldl_cons, ih, mem_methods_addToGroup]
    constructor
    · rintro ((h | rfl) | ⟨u, hu, rfl⟩)
      · exact Or.inl h
      · exact Or.inr ⟨t, List.mem_cons_self _ _, rfl⟩
      · exact Or.inr ⟨u, List.mem_cons_of_mem _ hu, rfl⟩
    · rintro (h | ⟨u, hu, rfl⟩)
      · exact Or.inl (Or.inl h)
      · cases List.mem_cons.mp hu with
        | inl h => exact Or.inl (Or.inr (by rw [h]))
        | inr h => exact Or.inr ⟨u, h, rfl⟩

theorem allowed_toLower_toUpper (m : String)
    (h : m ∈ OpenAPIv3Parser.allowed_http_methods) : pyLower (pyUpper m) = m := by
  simp only [OpenAPIv3Parser.allowed_http_methods, List.mem_cons,
    List.mem_singleton, List.not_mem_nil, or_false] at h
  rcases h with rfl | rfl | rfl | rfl | rfl <;> decide

theorem six_toLower_toUpper (m : String)
    (h : m ∈ TestGenerator.six_http_methods) : pyLower (pyUpper m) = m := by
  simp only [TestGenerator.six_http_methods, List.mem_cons,
    List.mem_singleton, List.not_mem_nil, or_false] at h
  rcases h with rfl | rfl | rfl | rfl | rfl | rfl <;> decide

theorem allowed_mem_six (m : String)
    (h : m ∈ OpenAPIv3Parser.allowed_http_methods) :
    m ∈ TestGenerator.six_http_methods := by
  simp only [OpenAPIv3Parser.allowed_http_methods, List.mem_cons,
    List.mem_singleton, List.not_mem_nil, or_false] at h
  rcases h with rfl | rfl | rfl | rfl | rfl <;> decide

theorem foldl_getD_of_atPath :
    ∀ (parts : List String) (doc t : Json),
      Json.atPath? doc parts = some t →
      parts.foldl (fun j k => j.getD k (Json.obj [])) doc = t := by
  intro parts
  induction parts with
  | nil =>
    intro doc t h
    simpa [Json.atPath?] using h
  | cons k ks ih =>
    intro doc t h
    unfold Json.atPath? at h
    cases hk : doc.getKey? k with
    | none => rw [hk] at h; exact absurd h (by simp)
    | some v =>
      rw [hk] at h
      rw [List.foldl_cons]
      have hv : doc.getD k (Json.obj []) = v := by simp [Json.getD, hk]
      rw [hv]
      exact ih v t h

/-- C6: for a reference of the form a fragment marker followed by at most
three path segments, schema resolution returns exactly the document subtree
reached by descending along those segments; for deeper references it
returns the empty schema. -/
theorem claim_C6 (doc : Json) (ref : String) (parts : List String) (t : Json)
    (hsplit : pySplit ref '/' = "#" :: parts) :
    (parts.length ≤ 3 → Json.atPath? doc parts = some t →
      OpenAPIv3Parser._fetch_schema_from_spec doc ref = t) ∧
    (3 < parts.length →
      OpenAPIv3Parser._fetch_schema_from_spec doc ref = Json.obj []) := by
  unfold OpenAPIv3Parser._fetch_schema_from_spec
  rw [hsplit]
  simp only [List.drop_succ_cons, List.drop_zero]
  constructor
  · intro hlen hat
    rw [if_neg (by omega)]
    exact foldl_getD_of_atPath parts doc t hat
  · intro hlen
    rw [if_pos (by omega)]

/-- C6 witness: resolving a depth-three reference in a concrete document
returns the referenced subtree, and a depth-four reference returns the
empty schema. -/
theorem claim_C6_witness :
    OpenAPIv3Parser._fetch_schema_from_spec docC3 "#/components/schemas/X"
        = Json.obj [("type", Json.str "object")] ∧
    OpenAPIv3Parser._fetch_schema_from_spec docC3 "#/a/b/c/d" = Json.obj [] :=
  ⟨(claim_C6 docC3 "#/components/schemas/X" ["components", "schemas", "X"]
      (Json.obj [("type", Json.str "object")]) (by decide)).1 (by decide) (by decide),
   (claim_C6 docC3 "#/a/b/c/d" ["a", "b", "c", "d"] Json.null (by decide)).2 (by decide)⟩

/-- C9: on a v3 document whose top-level servers entry is a sequence, the
parser fails with the Server URLs Not Found error kind exactly when that
sequence is empty; an error result produces no endpoint records, and with a
non-empty servers sequence this error kind is never the outcome. -/
theorem claim_C9 (doc : Json) (l : List Json)
    (hv3 : OpenAPIv3Parser.is_v3_doc doc = true)
    (hs : doc.getD "servers" (Json.arr []) = Json.arr l) :
    (OpenAPIv3Parser.parseOpenAPIv3 doc
        = .error "Server URLs Not Found in spec file") ↔ l = [] := by
  unfold OpenAPIv3Parser.parseOpenAPIv3 OpenAPIv3Parser._populate_hosts
  rw [hv3, hs]
  cases l with
  | nil => simp [Json.truthy]
  | cons s rest =>
    simp only [Json.truthy, List.isEmpty_cons, Bool.not_false, Bool.not_true,
      Bool.false_eq_true, if_false, Json.asList, List.map_cons, if_neg]
    constructor
    · intro h
      simp at h
    · intro h
      exact absurd h (List.cons_ne_nil s rest)

/-- C9 witness: a concrete v3 document without a servers entry fails with
exactly the Server URLs Not Found error kind. -/
theorem claim_C9_witness :
    (OpenAPIv3Parser.parseOpenAPIv3 docNoServers
        = .error "Server URLs Not Found in spec file") ↔ ([] : List Json) = [] :=
  claim_C9 docNoServers [] (by decide) (by decide)

theorem lookup_strip_auth_headers (kwargs : List (String × Json)) :
    (TestGenerator.strip_auth_headers kwargs).lookup "headers"
      = (kwargs.lookup "headers").map
          (fun v => (v.objDrop "Authorization").objDrop "X-Api-Key") := by
  induction kwargs with
  | nil => rfl
  | cons kv rest ih =>
    obtain ⟨k1, v1⟩ := kv
    by_cases hk : k1 = "headers"
    · subst hk
      simp [TestGenerator.strip_auth_headers, List.lookup]
    · have hbeq : ("headers" == k1) = false := by simp [Ne.symm hk]
      show List.lookup "headers"
          ((if k1 = "headers"
            then (k1, (v1.objDrop "Authorization").objDrop "X-Api-Key")
            else (k1, v1)) :: TestGenerator.strip_auth_headers rest)
          = Option.map (fun v => (v.objDrop "Authorization").objDrop "X-Api-Key")
              (List.lookup "headers" ((k1, v1) :: rest))
      rw [if_neg hk]
      simpa [List.lookup, hbeq] using ih

/-- C4 counterexample: the missing-auth generator does not strip a
per-descriptor copy: it pops the two header names from the caller-supplied
headers mapping itself, so after the call the caller's mapping has lost its
Authorization entry. -/
theorem claim_C4_counterexample :
    (TestGenerator.missing_auth_fuzz_test pstateSec TestGenerator.bola_success_codes
        [] auth_kwargs).2 ≠ auth_kwargs ∧
    (TestGenerator.missing_auth_fuzz_test pstateSec TestGenerator.bola_success_codes
        [] auth_kwargs).2 = [("headers", Json.obj [("Other", Json.str "v")])] := by
  constructor
  · decide
  · decide

/-- C4 amended: the generator strips exactly Authorization and X-Api-Key
from the caller-supplied headers mapping itself, once, before emitting; the
post-call state of the passthrough kwargs is the stripped mapping, every
emitted descriptor shares it, and no emitted descriptor's kwargs carries an
Authorization or X-Api-Key header, for every input headers mapping. -/
theorem claim_C4 (pstate : OpenAPIv3Parser.ParserState) (sc : List Int)
    (args : List Json) (kwargs : List (String × Json)) :
    (TestGenerator.missing_auth_fuzz_test pstate sc args kwargs).2
        = TestGenerator.strip_auth_headers kwargs ∧
    ∀ t ∈ (TestGenerator.missing_auth_fuzz_test pstate sc args kwargs).1,
      t.kwargs_pass = TestGenerator.strip_auth_headers kwargs ∧
      ((t.kwargs_pass.lookup "headers").getD
          (Json.obj [])).getKey? "Authorization" = none ∧
      ((t.kwargs_pass.lookup "headers").getD
          (Json.obj [])).getKey? "X-Api-Key" = none := by
  constructor
  · rfl
  · intro t ht
    have hkw : t.kwargs_pass = TestGenerator.strip_auth_headers kwargs := by
      unfold TestGenerator.missing_auth_fuzz_test at ht
      simp only [List.mem_map] at ht
      rcases ht with ⟨r, _, rfl⟩
      rfl
    refine ⟨hkw, ?_, ?_⟩
    · rw [hkw, lookup_strip_auth_headers]
      cases kwargs.lookup "headers" with
      | none => rfl
      | some v =>
        show ((v.objDrop "Authorization").objDrop "X-Api-Key").getKey?
            "Authorization" = none
        rw [Json.getKey?_objDrop_ne _ _ _ (by decide)]
        exact Json.getKey?_objDrop_self _ _
    · rw [hkw, lookup_strip_auth_headers]
      cases kwargs.lookup "headers" with
      | none => rfl
      | some v =>
        show ((v.objDrop "Authorization").objDrop "X-Api-Key").getKey?
            "X-Api-Key" = none
        exact Json.getKey?_objDrop_self _ _

/-- C4 witness: for the concrete secured endpoint and concrete caller
headers carrying an Authorization entry, the emitted descriptor's kwargs
holds the stripped mapping and carries neither header. -/
theorem claim_C4_witness :
    ((TestGenerator.missing_auth_fuzz_test pstateSec TestGenerator.bola_success_codes
        [] auth_kwargs).1.head!.kwargs_pass
      = TestGenerator.strip_auth_headers auth_kwargs) ∧
    (((TestGenerator.missing_auth_fuzz_test pstateSec TestGenerator.bola_success_codes
        [] auth_kwargs).1.head!.kwargs_pass.lookup "headers").getD
          (Json.obj [])).getKey? "Authorization" = none ∧
    (((TestGenerator.missing_auth_fuzz_test pstateSec TestGenerator.bola_success_codes
        [] auth_kwargs).1.head!.kwargs_pass.lookup "headers").getD
          (Json.obj [])).getKey? "X-Api-Key" = none :=
  (claim_C4 pstateSec TestGenerator.bola_success_codes [] auth_kwargs).2 _ (by decide)

/-- C7 counterexample: with an http server declared first and an https
server second, the helper computing the any-server rule answers https, yet
the parser's base_url uses http, because the constructor overwrites the
scheme with the first server's scheme. -/
theorem claim_C7_counterexample :
    OpenAPIv3Parser._get_scheme docC7 = "https" ∧
    ((docC7.getD "servers" (Json.arr [])).asList.any
        (fun s => substrB "https://" ((s.getD "url" Json.null).asStringD ""))) = true ∧
    (OpenAPIv3Parser.parseOpenAPIv3 docC7).toOption.map
        (fun st => st.base_url) = some "http://a.com:80" := by
  refine ⟨by decide, by decide, by decide⟩

/-- C7 amended: the scheme the parser adopts for base_url is the first
declared server's scheme (the first server is the authoritative host), not
the any-server rule; the helper get_scheme separately computes https
exactly when some declared server URL contains the https marker, but its
result is overwritten. -/
theorem claim_C7 (doc : Json) (st : OpenAPIv3Parser.ParserState)
    (hok : OpenAPIv3Parser.parseOpenAPIv3 doc = .ok st) :
    (st.http_scheme = (parse_server_url
        ((((doc.getD "servers" (Json.arr [])).asList.headD
            Json.null).getD "url" Json.null).asStringD "")).scheme ∧
     st.base_url = st.http_scheme ++ "://" ++ st.host) ∧
    (OpenAPIv3Parser._get_scheme doc = "https" ↔
      ∃ s ∈ (doc.getD "servers" (Json.arr [])).asList,
        substrOf "https://" ((s.getD "url" Json.null).asStringD "")) := by
  constructor
  · unfold OpenAPIv3Parser.parseOpenAPIv3 OpenAPIv3Parser._populate_hosts at hok
    by_cases hv3 : OpenAPIv3Parser.is_v3_doc doc = true
    · rw [hv3] at hok
      simp only [Bool.not_true, Bool.false_eq_true, if_false] at hok
      by_cases htr : (doc.getD "servers" (Json.arr [])).truthy = true
      · rw [if_neg (by simp [htr])] at hok
        cases hl : (doc.getD "servers" (Json.arr [])).asList with
        | nil => simp [hl] at hok
        | cons u us =>
          rw [hl] at hok
          simp only [List.map_cons] at hok
          rcases (Except.ok.injEq _ _).mp hok.symm with rfl
          constructor
          · simp [hl]
          · show _ = _ ++ _ ++ _
            simp [String.append_assoc]
      · rw [if_pos (by simpa using htr)] at hok
        exact absurd hok (by simp)
    · rw [show OpenAPIv3Parser.is_v3_doc doc = false by
          revert hv3; cases OpenAPIv3Parser.is_v3_doc doc <;> simp] at hok
      exact absurd hok (by simp)
  · unfold OpenAPIv3Parser._get_scheme
    have hiff : (((doc.getD "servers" (Json.arr [])).asList.map (fun s =>
        if substrB "https://" ((s.getD "url" Json.null).asStringD "")
        then "https" else "http")).contains "https") = true ↔
        ∃ s ∈ (doc.getD "servers" (Json.arr [])).asList,
          substrOf "https://" ((s.getD "url" Json.null).asStringD "") := by
      rw [List.contains_iff_exists_mem_beq]
      constructor
      · rintro ⟨a, ha, hba⟩
        have ha' : a = "https" := (eq_of_beq hba).symm
        subst ha'
        rcases List.mem_map.mp ha with ⟨s, hs, hfs⟩
        refine ⟨s, hs, ?_⟩
        by_cases hb : substrB "https://" ((s.getD "url" Json.null).asStringD "") = true
        · exact of_decide_eq_true hb
        · rw [if_neg (by simpa using hb)] at hfs
          exact absurd hfs (by decide)
      · rintro ⟨s, hs, hsub⟩
        refine ⟨"https", List.mem_map.mpr ⟨s, hs, ?_⟩, by decide⟩
        rw [if_pos (show substrB "https://" ((s.getD "url" Json.null).asStringD "")
          = true from decide_eq_true hsub)]
    by_cases hc : (((doc.getD "servers" (Json.arr [])).asList.map (fun s =>
        if substrB "https://" ((s.getD "url" Json.null).asStringD "")
        then "https" else "http")).contains "https") = true
    · rw [if_pos hc]
      exact iff_of_true rfl (hiff.mp hc)
    · rw [if_neg hc]
      constructor
      · intro h
        exact absurd h (by decide)
      · intro hex
        exact absurd (hiff.mpr hex) hc

/-- C7 witness: the amended statement instantiated at the concrete
two-server document and its parse result. -/
theorem claim_C7_witness :
    (stC7.http_scheme = (parse_server_url
        ((((docC7.getD "servers" (Json.arr [])).asList.headD
            Json.null).getD "url" Json.null).asStringD "")).scheme ∧
     stC7.base_url = stC7.http_scheme ++ "://" ++ stC7.host) ∧
    (OpenAPIv3Parser._get_scheme docC7 = "https" ↔
      ∃ s ∈ (docC7.getD "servers" (Json.arr [])).asList,
        substrOf "https://" ((s.getD "url" Json.null).asStringD "")) :=
  claim_C7 docC7 stC7 (by rfl)

theorem foldl_objSet_schema_shape (v : Json) {β : Type}
    (step : Json → β → Json)
    (hstep : ∀ acc b, step acc b = acc ∨ ∃ y, step acc b = acc.objSet "schema" y) :
    ∀ (ks : List β) (acc : Json),
      (acc = v ∨ ∃ x, acc = v.objSet "schema" x) →
      (ks.foldl step acc = v ∨ ∃ x, ks.foldl step acc = v.objSet "schema" x) := by
  intro ks
  induction ks with
  | nil => intro acc h; simpa using h
  | cons b rest ih =>
    intro acc h
    rw [List.foldl_cons]
    apply ih
    rcases hstep acc b with he | ⟨y, he⟩
    · rw [he]; exact h
    · rw [he]
      rcases h with rfl | ⟨x, rfl⟩
      · exact Or.inr ⟨y, rfl⟩
      · exact Or.inr ⟨y, Json.objSet_objSet v "schema" x y⟩

/-- C3 counterexample: parsing a concrete document with a referenced
response schema succeeds but leaves the document tree changed: the response
object for status 200 has gained a schema entry, so the normalizer does
mutate its input. -/
theorem claim_C3_counterexample :
    (OpenAPIv3Parser.parseOpenAPIv3 docC3).toOption.isSome = true ∧
    (OpenAPIv3Parser.parseOpenAPIv3 docC3).toOption.map
        (fun st => st.doc_after) ≠ some docC3 ∧
    (OpenAPIv3Parser.parseOpenAPIv3 docC3).toOption.map (fun st =>
        ((st.doc_after.atPath? ["paths", "/a", "get", "responses", "200"]).getD
            Json.null).hasKey "schema") = some true := by
  refine ⟨by decide, by decide, by decide⟩

/-- C3 amended: the spec normalizer does mutate the decoded document tree,
but only by writing a schema entry into response objects (each processed
response object is either unchanged or the original with its schema entry
set) and by extending operation parameter lists with the synthesized body
records; the payload injector works on a deep copy, and each record it
returns is an input record either unchanged or with only its value entry
overwritten by the payload. -/
theorem claim_C3 :
    (∀ spec v, OpenAPIv3Parser.processStatus spec v = v ∨
       ∃ x, OpenAPIv3Parser.processStatus spec v = v.objSet "schema" x) ∧
    (∀ (params : List Json) (pl : String) (p : Json),
       p ∈ TestGenerator.inject_payload_in_params params pl →
       ∃ q, q ∈ params ∧ (p = q ∨ p = q.objSet "value" (Json.str pl))) := by
  constructor
  · intro spec v
    unfold OpenAPIv3Parser.processStatus
    by_cases hct : (v.getD "content" Json.null).truthy = true
    · rw [if_pos hct]
      apply foldl_objSet_schema_shape v
      · intro acc ct
        dsimp only
        by_cases h1 : (((v.getD "content" Json.null).getD ct Json.null).hasKey
            "parameters") = true
        · rw [if_pos h1]
          exact Or.inr ⟨_, rfl⟩
        · rw [if_neg h1]
          by_cases h2 : (((v.getD "content" Json.null).getD ct Json.null).hasKey
              "schema") = true
          · rw [if_pos h2]
            exact Or.inr ⟨_, rfl⟩
          · rw [if_neg h2]
            exact Or.inl rfl
      · exact Or.inl rfl
    · rw [if_neg hct]
      by_cases hr : (v.getD "$ref" Json.null).truthy = true
      · rw [if_pos hr]
        exact Or.inr ⟨_, rfl⟩
      · rw [if_neg hr]
        exact Or.inl rfl
  · intro params pl p hp
    unfold TestGenerator.inject_payload_in_params at hp
    rcases List.mem_map.mp hp with ⟨q, hq, hpq⟩
    by_cases hqt : (q.getD "type" Json.null == Json.str "string") = true
    · rw [if_pos hqt] at hpq
      exact ⟨q, hq, Or.inr hpq.symm⟩
    · rw [if_neg hqt] at hpq
      exact ⟨q, hq, Or.inl hpq.symm⟩

/-- C3 witness: the shape statements instantiated at a concrete response
object and a concrete parameter list. -/
theorem claim_C3_witness :
    (OpenAPIv3Parser.processStatus docC3
        (Json.obj [("description", Json.str "ok")])
      = Json.obj [("description", Json.str "ok")] ∨
     ∃ x, OpenAPIv3Parser.processStatus docC3
        (Json.obj [("description", Json.str "ok")])
      = (Json.obj [("description", Json.str "ok")]).objSet "schema" x) ∧
    (∃ q, q ∈ [qparamS] ∧
      (qparamS.objSet "value" (Json.str "x") = q ∨
       qparamS.objSet "value" (Json.str "x") = q.objSet "value" (Json.str "x"))) :=
  ⟨claim_C3.1 docC3 (Json.obj [("description", Json.str "ok")]),
   claim_C3.2 [qparamS] "x" (qparamS.objSet "value" (Json.str "x")) (by decide)⟩

/-- C5 counterexample: the SQLi body/query generator does not skip an
endpoint that has no parameters at all (hence no string-typed body or query
parameter): it emits five descriptors for it, one per payload, instead of
zero. -/
theorem claim_C5_counterexample :
    recNoParams.request_params = [] ∧
    (TestGenerator.sqli_fuzz_params_test pstateNP [500] [] []).length = 5 := by
  refine ⟨rfl, by decide⟩

/-- C5 amended: the OS command / XSS / SSTI driver skips exactly the
endpoints whose fuzzed body and query parameter lists are both empty
(regardless of parameter types), raising no error, so every descriptor it
emits carries at least one body or query parameter; the SQLi body/query
generator performs no such skip and emits descriptors even for endpoints
with no injectable parameters. -/
theorem claim_C5 :
    (∀ (pstate : OpenAPIv3Parser.ParserState) (tn : String) (vd : String × String)
        (pds : List PayloadData) (args : List Json) (kwargs : List (String × Json))
        (t : TaskRec),
      t ∈ TestGenerator.generate_injection_fuzz_params_test pstate tn vd pds args kwargs →
      ¬(t.body_params = [] ∧ t.query_params = [])) ∧
    (TestGenerator.sqli_fuzz_params_test pstateNP [500] [] []).length = 5 := by
  constructor
  · intro pstate tn vd pds args kwargs t ht
    unfold TestGenerator.generate_injection_fuzz_params_test at ht
    refine foldl_acc_mem _ (fun u => ¬(u.body_params = [] ∧ u.query_params = []))
      (fun _ => True) pds (fun _ _ _ _ _ _ => trivial) ?_ _ (fun _ _ => trivial)
      (fun u hu => absurd hu (List.not_mem_nil u)) t ht
    intro s b _ _ u hu
    rcases List.mem_append.mp hu with h | h
    · exact Or.inl h
    · refine Or.inr ?_
      rcases List.mem_filter.mp h with ⟨_, hb⟩
      intro ⟨hb1, hb2⟩
      simp [hb1, hb2] at hb
  · decide

/-- C5 witness: the driver statement instantiated at the concrete
integer-parameter endpoint and the first emitted OS command injection
descriptor. -/
theorem claim_C5_witness :
    ¬(((TestGenerator.os_command_injection_fuzz_params_test pstateInt).head!.body_params
        = []) ∧
      ((TestGenerator.os_command_injection_fuzz_params_test pstateInt).head!.query_params
        = [])) :=
  claim_C5.1 pstateInt "OS Command Injection Test"
    ("One or more parameter is vulnerable to OS Command Injection Attack",
     "Parameters are not vulnerable to OS Command Injection")
    TestGenerator.os_command_payloads [] [] _ (by decide)

/-- C2 counterexample: the OS command injection driver emits descriptors
for an endpoint whose only parameter is integer-typed; no parameter of any
emitted descriptor is string-typed, so the catalog payload appears as the
value of no string-typed parameter, contradicting the claim for every
emitted (endpoint, payload) pair. -/
theorem claim_C2_counterexample :
    (TestGenerator.os_command_injection_fuzz_params_test pstateInt).length = 3 ∧
    ((TestGenerator.os_command_injection_fuzz_params_test pstateInt).all (fun t =>
      (t.body_params ++ t.query_params).all (fun p =>
        !(p.getD "type" Json.null == Json.str "string")))) = true := by
  refine ⟨by decide, by decide⟩

/-- C2 amended: for the SQLi body/query generator and the OS/XSS/SSTI
driver, every emitted descriptor's malicious payload is one of the catalog
payloads and every string-typed parameter of its body or query carries
exactly that payload as its value (so the payload appears whenever the
endpoint has at least one string-typed body or query parameter, and not
otherwise); for the path-SQLi test, the payload appears in the materialized
URL provided the first merged path parameter's placeholder occurs in the
raw path and the payload is non-empty and slash-free. -/
theorem claim_C2 :
    (∀ (pstate : OpenAPIv3Parser.ParserState) (sc : List Int) (args : List Json)
        (kwargs : List (String × Json)) (t : TaskRec),
      t ∈ TestGenerator.sqli_fuzz_params_test pstate sc args kwargs →
      ∃ pl, pl ∈ TestGenerator.basic_sqli_payloads ∧
        t.malicious_payload = some (Json.str pl) ∧
        ∀ p, p ∈ t.body_params ++ t.query_params →
          p.getD "type" Json.null = Json.str "string" →
          p.getD "value" Json.null = Json.str pl) ∧
    (∀ (pstate : OpenAPIv3Parser.ParserState) (tn : String) (vd : String × String)
        (pds : List PayloadData) (args : List Json) (kwargs : List (String × Json))
        (t : TaskRec),
      t ∈ TestGenerator.generate_injection_fuzz_params_test pstate tn vd pds args kwargs →
      ∃ pl, pl ∈ pds.map (fun pd => pd.request_payload) ∧
        t.malicious_payload = some (Json.str pl) ∧
        ∀ p, p ∈ t.body_params ++ t.query_params →
          p.getD "type" Json.null = Json.str "string" →
          p.getD "value" Json.null = Json.str pl) ∧
    (∀ (pstate : OpenAPIv3Parser.ParserState) (sc : List Int) (args : List Json)
        (kwargs : List (String × Json)) (pl : String) (r : EndpointRecord)
        (p : Json) (ps : List Json),
      TestGenerator.path_sqli_params pstate r = p :: ps →
      substrOf ("\x7b" ++ (p.getD "name" Json.null).pyStr ++ "\x7d") r.path →
      pl.data ≠ [] → '/' ∉ pl.data →
      substrOf pl (TestGenerator.mk_path_sqli_task pstate sc args kwargs pl r).url) := by
  refine ⟨?_, ?_, ?_⟩
  · intro pstate sc args kwargs t ht
    unfold TestGenerator.sqli_fuzz_params_test at ht
    refine foldl_acc_mem _ (fun u => ∃ pl, pl ∈ TestGenerator.basic_sqli_payloads ∧
        u.malicious_payload = some (Json.str pl) ∧
        ∀ p, p ∈ u.body_params ++ u.query_params →
          p.getD "type" Json.null = Json.str "string" →
          p.getD "value" Json.null = Json.str pl)
      (fun _ => True) TestGenerator.basic_sqli_payloads
      (fun _ _ _ _ _ _ => trivial) ?_ _ (fun _ _ => trivial)
      (fun u hu => absurd hu (List.not_mem_nil u)) t ht
    intro s b hb _ u hu
    rcases List.mem_append.mp hu with h | h
    · exact Or.inl h
    · refine Or.inr ?_
      rcases List.mem_map.mp h with ⟨o, _, rfl⟩
      refine ⟨b, hb, rfl, ?_⟩
      intro p hp htyp
      rcases List.mem_append.mp hp with hpb | hpq
      · exact inject_value_of_string_typed o.body_params b p hpb htyp
      · exact inject_value_of_string_typed o.query_params b p hpq htyp
  · intro pstate tn vd pds args kwargs t ht
    unfold TestGenerator.generate_injection_fuzz_params_test at ht
    refine foldl_acc_mem _ (fun u => ∃ pl, pl ∈ pds.map (fun pd => pd.request_payload) ∧
        u.malicious_payload = some (Json.str pl) ∧
        ∀ p, p ∈ u.body_params ++ u.query_params →
          p.getD "type" Json.null = Json.str "string" →
          p.getD "value" Json.null = Json.str pl)
      (fun _ => True) pds
      (fun _ _ _ _ _ _ => trivial) ?_ _ (fun _ _ => trivial)
      (fun u hu => absurd hu (List.not_mem_nil u)) t ht
    intro s b hb _ u hu
    rcases List.mem_append.mp hu with h | h
    · exact Or.inl h
    · refine Or.inr ?_
      rcases List.mem_filter.mp h with ⟨hum, hbool⟩
      rcases List.mem_map.mp hum with ⟨o, _, rfl⟩
      by_cases hskip : (o.body_params.isEmpty && o.query_params.isEmpty) = true
      · rw [if_pos hskip] at hbool ⊢
        simp [Bool.not_and] at hbool
        rcases hbool with h1 | h1 <;>
          simp [Bool.and_eq_true] at hskip <;>
          [exact absurd hskip.1 (by simp [h1]); exact absurd hskip.2 (by simp [h1])]
      · rw [if_neg hskip]
        refine ⟨b.request_payload, List.mem_map.mpr ⟨b, hb, rfl⟩, rfl, ?_⟩
        intro p hp htyp
        rcases List.mem_append.mp hp with hpb | hpq
        · exact inject_value_of_string_typed o.body_params b.request_payload p hpb htyp
        · exact inject_value_of_string_typed o.query_params b.request_payload p hpq htyp
  · intro pstate sc args kwargs pl r p ps hps hpat hne hs
    unfold TestGenerator.mk_path_sqli_task
    show pl.data <:+: (join_uri_path
      ([pstate.base_url, pstate.api_base_path] ++
        [(TestGenerator.path_sqli_params pstate r).foldl (fun s q =>
          pyReplace s ("\x7b" ++ (q.getD "name" Json.null).pyStr ++ "\x7d") pl) r.path])).data
    apply substr_join_uri_last _ _ _ hne hs
    rw [hps, List.foldl_cons]
    apply payload_infix_subst_fold
    show pl.data <:+: (replL ("\x7b" ++ (p.getD "name" Json.null).pyStr ++ "\x7d").data
      pl.data r.path.data)
    apply repl_infix_replL _ _ ?_ _ hpat
    show ("\x7b" ++ ((p.getD "name" Json.null).pyStr ++ "\x7d")).data ≠ []
    rw [String.data_append]
    simp

/-- C2 witness: the body/query statement instantiated at the first SQLi
descriptor for a concrete endpoint with a string query parameter, and the
path statement instantiated at a concrete endpoint whose placeholder
matches its path parameter. -/
theorem claim_C2_witness :
    (∃ pl, pl ∈ TestGenerator.basic_sqli_payloads ∧
      (TestGenerator.sqli_fuzz_params_test pstateInt [500] [] []).head!.malicious_payload
        = some (Json.str pl) ∧
      ∀ p, p ∈ (TestGenerator.sqli_fuzz_params_test pstateInt [500] [] []).head!.body_params
          ++ (TestGenerator.sqli_fuzz_params_test pstateInt [500] [] []).head!.query_params →
        p.getD "type" Json.null = Json.str "string" →
        p.getD "value" Json.null = Json.str pl) ∧
    substrOf "' OR 1=1 ;--"
      (TestGenerator.mk_path_sqli_task pstateA [500] [] [] "' OR 1=1 ;--" recA).url :=
  ⟨claim_C2.1 pstateInt [500] [] [] _ (by decide),
   claim_C2.2.2 pstateA [500] [] [] "' OR 1=1 ;--" recA
     (TestGenerator.path_sqli_params pstateA recA).head!
     (TestGenerator.path_sqli_params pstateA recA).tail
     (by decide) (by decide) (by decide) (by decide)⟩

theorem fuzz_one_regex_none (pstate : OpenAPIv3Parser.ParserState)
    (r : EndpointRecord) :
    (TestGenerator.fuzz_one pstate r).response_match_regex = none := rfl

theorem fuzz_one_success_none (pstate : OpenAPIv3Parser.ParserState)
    (r : EndpointRecord) :
    (TestGenerator.fuzz_one pstate r).success_codes = none := rfl

theorem unsupported_operative (pstate : OpenAPIv3Parser.ParserState)
    (sc : List Int) (args : List Json) (kwargs : List (String × Json)) :
    ∀ t ∈ TestGenerator.check_unsupported_http_methods pstate sc args kwargs,
      operative t := by
  intro t ht
  unfold TestGenerator.check_unsupported_http_methods at ht
  rcases List.mem_flatMap.mp ht with ⟨eg, _, ht2⟩
  rcases List.mem_map.mp ht2 with ⟨m, _, rfl⟩
  exact Or.inl ⟨rfl, rfl, rfl⟩

theorem sqli_operative (pstate : OpenAPIv3Parser.ParserState)
    (sc : List Int) (args : List Json) (kwargs : List (String × Json)) :
    ∀ t ∈ TestGenerator.sqli_fuzz_params_test pstate sc args kwargs,
      operative t := by
  intro t ht
  unfold TestGenerator.sqli_fuzz_params_test at ht
  refine foldl_acc_mem _ operative (fun o => o.response_match_regex = none)
    TestGenerator.basic_sqli_payloads ?_ ?_ _ ?_
    (fun u hu => absurd hu (List.not_mem_nil u)) t ht
  · intro s b _ hQ o ho
    rcases List.mem_map.mp ho with ⟨o0, ho0, rfl⟩
    exact hQ o0 ho0
  · intro s b _ hQ u hu
    rcases List.mem_append.mp hu with h | h
    · exact Or.inl h
    · refine Or.inr ?_
      rcases List.mem_map.mp h with ⟨o, ho, rfl⟩
      exact Or.inl ⟨rfl, rfl, hQ o ho⟩
  · intro o ho
    rcases List.mem_map.mp ho with ⟨r, _, rfl⟩
    rfl

theorem path_sqli_operative (pstate : OpenAPIv3Parser.ParserState)
    (sc : List Int) (args : List Json) (kwargs : List (String × Json)) :
    ∀ t ∈ TestGenerator.sqli_in_uri_path_fuzz_test pstate sc args kwargs,
      operative t := by
  intro t ht
  unfold TestGenerator.sqli_in_uri_path_fuzz_test at ht
  refine foldl_acc_mem _ operative (fun _ : EndpointRecord => True)
    TestGenerator.basic_sqli_payloads (fun _ _ _ _ _ _ => trivial) ?_ _
    (fun _ _ => trivial) (fun u hu => absurd hu (List.not_mem_nil u)) t ht
  intro s b _ _ u hu
  rcases List.mem_append.mp hu with h | h
  · exact Or.inl h
  · refine Or.inr ?_
    rcases List.mem_map.mp h with ⟨r, _, rfl⟩
    exact Or.inl ⟨rfl, rfl, rfl⟩

theorem bola_operative (pstate : OpenAPIv3Parser.ParserState)
    (sc : List Int) (args : List Json) (kwargs : List (String × Json)) :
    ∀ t ∈ TestGenerator.bola_fuzz_path_test pstate sc args kwargs,
      operative t := by
  intro t ht
  unfold TestGenerator.bola_fuzz_path_test at ht
  rcases List.mem_map.mp ht with ⟨r, _, rfl⟩
  exact Or.inl ⟨rfl, rfl, rfl⟩

theorem bola_trailing_operative (pstate : OpenAPIv3Parser.ParserState)
    (sc : List Int) (args : List Json) (kwargs : List (String × Json)) :
    ∀ t ∈ TestGenerator.bola_fuzz_trailing_slash_path_test pstate sc args kwargs,
      operative t := by
  intro t ht
  unfold TestGenerator.bola_fuzz_trailing_slash_path_test at ht
  rcases List.mem_map.mp ht with ⟨r, _, rfl⟩
  exact Or.inl ⟨rfl, rfl, fuzz_one_regex_none pstate r⟩

theorem bopla_operative (pstate : OpenAPIv3Parser.ParserState)
    (sc : List Int) (args : List Json) (kwargs : List (String × Json)) :
    ∀ t ∈ TestGenerator.bopla_fuzz_test pstate sc args kwargs,
      operative t := by
  intro t ht
  unfold TestGenerator.bopla_fuzz_test at ht
  rcases List.mem_filterMap.mp ht with ⟨r, _, hr⟩
  by_cases hskip : ((List.filter (TestGenerator.paramIn "body")
      (fill_params r.request_params pstate.is_v3)).isEmpty &&
      (List.filter (TestGenerator.paramIn "query")
      (fill_params r.request_params pstate.is_v3)).isEmpty) = true
  · rw [if_pos hskip] at hr
    exact absurd hr (by simp)
  · rw [if_neg hskip] at hr
    rcases (Option.some.injEq _ _).mp hr with rfl
    exact Or.inl ⟨rfl, rfl, rfl⟩

theorem driver_operative (pstate : OpenAPIv3Parser.ParserState) (tn : String)
    (vd : String × String) (pds : List PayloadData) (args : List Json)
    (kwargs : List (String × Json))
    (hpds : ∀ pd ∈ pds, pd.response_match_regex.isSome = true) :
    ∀ t ∈ TestGenerator.generate_injection_fuzz_params_test pstate tn vd pds args kwargs,
      operative t := by
  intro t ht
  unfold TestGenerator.generate_injection_fuzz_params_test at ht
  refine foldl_acc_mem _ operative (fun o => o.success_codes = none) pds ?_ ?_ _ ?_
    (fun u hu => absurd hu (List.not_mem_nil u)) t ht
  · intro s b _ hQ o ho
    rcases List.mem_map.mp ho with ⟨o0, ho0, rfl⟩
    by_cases hskip : (o0.body_params.isEmpty && o0.query_params.isEmpty) = true
    · rw [if_pos hskip]
      exact hQ o0 ho0
    · rw [if_neg hskip]
      exact hQ o0 ho0
  · intro s b hb hQ u hu
    rcases List.mem_append.mp hu with h | h
    · exact Or.inl h
    · refine Or.inr ?_
      rcases List.mem_filter.mp h with ⟨hum, hbool⟩
      rcases List.mem_map.mp hum with ⟨o, ho, rfl⟩
      by_cases hskip : (o.body_params.isEmpty && o.query_params.isEmpty) = true
      · rw [if_pos hskip] at hbool
        rw [hskip] at hbool
        exact absurd hbool (by decide)
      · rw [if_neg hskip] at hbool ⊢
        exact Or.inr ⟨rfl, hpds b hb, hQ o ho⟩
  · intro o ho
    rcases List.mem_map.mp ho with ⟨r, _, rfl⟩
    rfl

theorem missing_auth_operative (pstate : OpenAPIv3Parser.ParserState)
    (sc : List Int) (args : List Json) (kwargs : List (String × Json)) :
    ∀ t ∈ (TestGenerator.missing_auth_fuzz_test pstate sc args kwargs).1,
      operative t := by
  intro t ht
  unfold TestGenerator.missing_auth_fuzz_test at ht
  rcases List.mem_map.mp ht with ⟨r, _, rfl⟩
  exact Or.inl ⟨rfl, rfl, rfl⟩

/-- C8: every descriptor emitted by any generator operation carries exactly
one operative evaluation field: status-code-filter descriptors carry
success codes and no response regex, body-regex-filter descriptors carry a
response regex and no success codes, and the filter is always one of these
two values. -/
theorem claim_C8 :
    (∀ pstate sc args kwargs,
      ∀ t ∈ TestGenerator.check_unsupported_http_methods pstate sc args kwargs,
        operative t) ∧
    (∀ pstate sc args kwargs,
      ∀ t ∈ TestGenerator.sqli_fuzz_params_test pstate sc args kwargs, operative t) ∧
    (∀ pstate sc args kwargs,
      ∀ t ∈ TestGenerator.sqli_in_uri_path_fuzz_test pstate sc args kwargs,
        operative t) ∧
    (∀ pstate sc args kwargs,
      ∀ t ∈ TestGenerator.bola_fuzz_path_test pstate sc args kwargs, operative t) ∧
    (∀ pstate sc args kwargs,
      ∀ t ∈ TestGenerator.bola_fuzz_trailing_slash_path_test pstate sc args kwargs,
        operative t) ∧
    (∀ pstate sc args kwargs,
      ∀ t ∈ TestGenerator.bopla_fuzz_test pstate sc args kwargs, operative t) ∧
    (∀ pstate,
      ∀ t ∈ TestGenerator.os_command_injection_fuzz_params_test pstate, operative t) ∧
    (∀ pstate,
      ∀ t ∈ TestGenerator.xss_html_injection_fuzz_params_test pstate, operative t) ∧
    (∀ pstate, ∀ t ∈ TestGenerator.ssti_fuzz_params_test pstate, operative t) ∧
    (∀ pstate sc args kwargs,
      ∀ t ∈ (TestGenerator.missing_auth_fuzz_test pstate sc args kwargs).1,
        operative t) :=
  ⟨unsupported_operative, sqli_operative, path_sqli_operative, bola_operative,
   bola_trailing_operative, bopla_operative,
   fun pstate => driver_operative pstate _ _ _ _ _ (by decide),
   fun pstate => driver_operative pstate _ _ _ _ _ (by decide),
   fun pstate => driver_operative pstate _ _ _ _ _ (by decide),
   missing_auth_operative⟩

/-- C8 witness: the unsupported-method statement instantiated at the first
descriptor emitted for a concrete endpoint. -/
theorem claim_C8_witness :
    operative (TestGenerator.check_unsupported_http_methods pstateNP
      TestGenerator.unsupported_success_codes [] []).head! :=
  claim_C8.1 pstateNP TestGenerator.unsupported_success_codes [] [] _ (by decide)

/-- C10: in the unsupported-method check, grouping is by the materialized
endpoint string, and every emitted descriptor carries body, query and path
parameter sequences equal to the concatenation of the fuzzed parameter
lists of all operations whose materialized endpoint fell into its group; in
particular all restricted-method descriptors of one group share these
sequences. -/
theorem claim_C10 (pstate : OpenAPIv3Parser.ParserState) (sc : List Int)
    (args : List Json) (kwargs : List (String × Json)) :
    ∀ t ∈ TestGenerator.check_unsupported_http_methods pstate sc args kwargs,
      t.body_params = ((TestGenerator.fuzz_request_params pstate).filter
          (fun f => f.endpoint = t.endpoint)).flatMap (fun f => f.body_params) ∧
      t.query_params = ((TestGenerator.fuzz_request_params pstate).filter
          (fun f => f.endpoint = t.endpoint)).flatMap (fun f => f.query_params) ∧
      t.path_params = ((TestGenerator.fuzz_request_params pstate).filter
          (fun f => f.endpoint = t.endpoint)).flatMap (fun f => f.path_params) := by
  intro t ht
  unfold TestGenerator.check_unsupported_http_methods at ht
  rcases List.mem_flatMap.mp ht with ⟨eg, heg, ht2⟩
  rcases List.mem_map.mp ht2 with ⟨m, _, rfl⟩
  obtain ⟨e, g⟩ := eg
  rcases (mem_build_index _ _ _).mp heg with ⟨_, rfl⟩
  refine ⟨?_, ?_, ?_⟩
  · show (_ : TestGenerator.MethodGroup).body_params = _
    rw [body_params_foldl_addToGroup]
    rfl
  · show (_ : TestGenerator.MethodGroup).query_params = _
    rw [query_params_foldl_addToGroup]
    rfl
  · show (_ : TestGenerator.MethodGroup).path_params = _
    rw [path_params_foldl_addToGroup]
    rfl

/-- C10 witness: for two concrete operations sharing one endpoint string,
the first emitted restricted-method descriptor carries the concatenated
fuzzed parameter sequences of both operations. -/
theorem claim_C10_witness :
    ((TestGenerator.check_unsupported_http_methods pstateCD
        TestGenerator.unsupported_success_codes [] []).head!.body_params
      = ((TestGenerator.fuzz_request_params pstateCD).filter (fun f =>
          f.endpoint = (TestGenerator.check_unsupported_http_methods pstateCD
            TestGenerator.unsupported_success_codes [] []).head!.endpoint)).flatMap
          (fun f => f.body_params)) ∧
    ((TestGenerator.check_unsupported_http_methods pstateCD
        TestGenerator.unsupported_success_codes [] []).head!.query_params
      = ((TestGenerator.fuzz_request_params pstateCD).filter (fun f =>
          f.endpoint = (TestGenerator.check_unsupported_http_methods pstateCD
            TestGenerator.unsupported_success_codes [] []).head!.endpoint)).flatMap
          (fun f => f.query_params)) ∧
    ((TestGenerator.check_unsupported_http_methods pstateCD
        TestGenerator.unsupported_success_codes [] []).head!.path_params
      = ((TestGenerator.fuzz_request_params pstateCD).filter (fun f =>
          f.endpoint = (TestGenerator.check_unsupported_http_methods pstateCD
            TestGenerator.unsupported_success_codes [] []).head!.endpoint)).flatMap
          (fun f => f.path_params)) :=
  claim_C10 pstateCD TestGenerator.unsupported_success_codes [] [] _ (by decide)

theorem keys_nodup_updateIndex (idx : List (String × TestGenerator.MethodGroup))
    (t : TaskRec) (h : (idx.map Prod.fst).Nodup) :
    ((TestGenerator.updateIndex idx t).map Prod.fst).Nodup := by
  unfold TestGenerator.updateIndex
  by_cases hc : (idx.any (fun kv => kv.1 = t.endpoint)) = true
  · rw [if_pos hc]
    have hkeys : (idx.map (fun kv =>
        if kv.1 = t.endpoint then (kv.1, TestGenerator.addToGroup kv.2 t) else kv)).map
          Prod.fst = idx.map Prod.fst := by
      rw [List.map_map]
      apply List.map_congr_left
      intro kv _
      by_cases hk : kv.1 = t.endpoint
      · simp [hk]
      · simp [hk]
    rw [hkeys]
    exact h
  · rw [if_neg hc]
    rw [List.map_append]
    refine List.nodup_append.mpr ⟨h, List.nodup_singleton _, ?_⟩
    intro x hx
    simp only [List.map_cons, List.map_nil, List.mem_singleton]
    intro hx'
    subst hx'
    rcases List.mem_map.mp hx with ⟨kv, hkv, hfst⟩
    exact hc (List.any_eq_true.mpr ⟨kv, hkv, by simp [hfst]⟩)

theorem keys_nodup_build_index (ts : List TaskRec) :
    ((TestGenerator.build_index ts).map Prod.fst).Nodup := by
  unfold TestGenerator.build_index
  have haux : ∀ (l : List TaskRec) (idx : List (String × TestGenerator.MethodGroup)),
      (idx.map Prod.fst).Nodup →
      ((l.foldl TestGenerator.updateIndex idx).map Prod.fst).Nodup := by
    intro l
    induction l with
    | nil => intro idx h; simpa using h
    | cons t rest ih =>
      intro idx h
      rw [List.foldl_cons]
      exact ih _ (keys_nodup_updateIndex idx t h)
  exact haux ts [] (by simp)

theorem value_eq_of_nodup_keys {α : Type} (idx : List (String × α))
    (hnd : (idx.map Prod.fst).Nodup) (e : String) (g g' : α)
    (h1 : (e, g) ∈ idx) (h2 : (e, g') ∈ idx) : g = g' := by
  induction idx with
  | nil => exact absurd h1 (List.not_mem_nil _)
  | cons kv rest ih =>
    rw [List.map_cons] at hnd
    rcases List.nodup_cons.mp hnd with ⟨hnotin, hnd'⟩
    rcases List.mem_cons.mp h1 with he1 | he1
    · rcases List.mem_cons.mp h2 with he2 | he2
      · rw [← he1] at he2
        exact ((Prod.mk.injEq _ _ _ _).mp he2).2.symm
      · exfalso
        apply hnotin
        rcases (Prod.mk.injEq _ _ _ _).mp he1.symm with ⟨hfst, _⟩
        exact hfst ▸ List.mem_map.mpr ⟨(e, g'), he2, rfl⟩
    · rcases List.mem_cons.mp h2 with he2 | he2
      · exfalso
        apply hnotin
        rcases (Prod.mk.injEq _ _ _ _).mp he2.symm with ⟨hfst, _⟩
        exact hfst ▸ List.mem_map.mpr ⟨(e, g), he1, rfl⟩
      · exact ih hnd' he1 he2

theorem group_methods_sub_allowed (pstate : OpenAPIv3Parser.ParserState)
    (hmeth : ∀ r ∈ pstate.request_response_params,
      r.http_method ∈ OpenAPIv3Parser.allowed_http_methods)
    (e : String) (g : TestGenerator.MethodGroup)
    (hg : (e, g) ∈ TestGenerator.build_index (TestGenerator.fuzz_request_params pstate)) :
    ∀ m ∈ g.methods, m ∈ OpenAPIv3Parser.allowed_http_methods := by
  intro m hm
  rcases (mem_build_index _ _ _).mp hg with ⟨_, rfl⟩
  rcases (mem_methods_foldl_addToGroup _ _ _).mp hm with h | ⟨t, ht, rfl⟩
  · exact absurd h (List.not_mem_nil _)
  · rcases List.mem_filter.mp ht with ⟨ht', _⟩
    rcases List.mem_map.mp ht' with ⟨r, hr, rfl⟩
    show pyLower (TestGenerator.fuzz_one pstate r).method ∈ _
    have : (TestGenerator.fuzz_one pstate r).method = pyUpper r.http_method := rfl
    rw [this, allowed_toLower_toUpper _ (hmeth r hr)]
    exact hmeth r hr

theorem emitted_restricted_iff (pstate : OpenAPIv3Parser.ParserState) (sc : List Int)
    (args : List Json) (kwargs : List (String × Json)) (e : String)
    (g : TestGenerator.MethodGroup)
    (hg : (e, g) ∈ TestGenerator.build_index (TestGenerator.fuzz_request_params pstate))
    (m : String) :
    (∃ t ∈ TestGenerator.check_unsupported_http_methods pstate sc args kwargs,
        t.endpoint = e ∧ pyLower t.method = m) ↔
      (m ∈ TestGenerator.six_http_methods ∧ m ∉ g.methods) := by
  constructor
  · rintro ⟨t, ht, hte, hm⟩
    unfold TestGenerator.check_unsupported_http_methods at ht
    rcases List.mem_flatMap.mp ht with ⟨eg, heg, ht2⟩
    rcases List.mem_map.mp ht2 with ⟨m0, hm0, rfl⟩
    obtain ⟨e', g'⟩ := eg
    have he' : e' = e := hte
    subst he'
    have hgg : g' = g :=
      value_eq_of_nodup_keys _ (keys_nodup_build_index _) e' g' g heg hg
    rcases List.mem_filter.mp hm0 with ⟨hm0six, hm0notin⟩
    have hlow : pyLower (pyUpper m0) = m0 := six_toLower_toUpper m0 hm0six
    rw [show pyLower _ = pyLower (pyUpper m0) from rfl, hlow] at hm
    subst hm
    refine ⟨hm0six, ?_⟩
    rw [← hgg]
    simpa using hm0notin
  · rintro ⟨hsix, hnot⟩
    have hfil : m ∈ TestGenerator.six_http_methods.filter (fun x => x ∉ g.methods) :=
      List.mem_filter.mpr ⟨hsix, by simpa using hnot⟩
    unfold TestGenerator.check_unsupported_http_methods
    simp only [List.mem_flatMap, List.mem_map]
    refine ⟨_, ⟨(e, g), hg, m, hfil, rfl⟩, rfl, ?_⟩
    exact six_toLower_toUpper m hsix

/-- C1 counterexample: a document declaring a path with get and patch
operations: patch is a documented method of that path, yet the unsupported
HTTP method check also emits a restricted-method descriptor with method
patch for it (the normalizer drops patch operations), so the set of
documented methods and the set of emitted restricted methods are not
disjoint. -/
theorem claim_C1_counterexample :
    "patch" ∈ documented_methods_of docC1 "/pets" ∧
    (OpenAPIv3Parser.parseOpenAPIv3 docC1).toOption.map (fun st =>
      ((TestGenerator.check_unsupported_http_methods st
          TestGenerator.unsupported_success_codes [] []).filter
        (fun t => t.endpoint = "/pets")).any (fun t => pyLower t.method = "patch"))
      = some true := by
  refine ⟨by decide, by decide⟩

/-- C1 amended: for every endpoint group of the unsupported-method check,
the group's parsed methods (the normalizer recognizes only get, put, post,
delete, options, so a documented patch operation is dropped and counts as
undocumented) and the lowercased methods of the emitted restricted-method
descriptors of that group are disjoint, and their union is exactly the six
probed verbs get, post, put, patch, delete, options. -/
theorem claim_C1 (pstate : OpenAPIv3Parser.ParserState) (sc : List Int)
    (args : List Json) (kwargs : List (String × Json)) (e : String)
    (g : TestGenerator.MethodGroup)
    (hmeth : ∀ r ∈ pstate.request_response_params,
      r.http_method ∈ OpenAPIv3Parser.allowed_http_methods)
    (hg : (e, g) ∈ TestGenerator.build_index (TestGenerator.fuzz_request_params pstate)) :
    (∀ m, (m ∈ g.methods ∨
        ∃ t ∈ TestGenerator.check_unsupported_http_methods pstate sc args kwargs,
          t.endpoint = e ∧ pyLower t.method = m) ↔
      m ∈ TestGenerator.six_http_methods) ∧
    (∀ m, ¬(m ∈ g.methods ∧
        ∃ t ∈ TestGenerator.check_unsupported_http_methods pstate sc args kwargs,
          t.endpoint = e ∧ pyLower t.method = m)) := by
  have hemit := fun m => emitted_restricted_iff pstate sc args kwargs e g hg m
  have hsub := group_methods_sub_allowed pstate hmeth e g hg
  constructor
  · intro m
    constructor
    · rintro (h | h)
      · exact allowed_mem_six m (hsub m h)
      · exact ((hemit m).mp h).1
    · intro hsix
      by_cases hmm : m ∈ g.methods
      · exact Or.inl hmm
      · exact Or.inr ((hemit m).mpr ⟨hsix, hmm⟩)
  · rintro m ⟨hmm, hex⟩
    exact ((hemit m).mp hex).2 hmm

/-- C1 witness: the amended statement instantiated at a concrete group of
two operations sharing one endpoint, evaluated at the method patch. -/
theorem claim_C1_witness :
    (("patch" ∈ (((TestGenerator.fuzz_request_params pstateCD).filter (fun t =>
          t.endpoint = "/items")).foldl TestGenerator.addToGroup {}).methods ∨
      ∃ t ∈ TestGenerator.check_unsupported_http_methods pstateCD
          TestGenerator.unsupported_success_codes [] [],
        t.endpoint = "/items" ∧ pyLower t.method = "patch") ↔
      "patch" ∈ TestGenerator.six_http_methods) ∧
    ¬("patch" ∈ (((TestGenerator.fuzz_request_params pstateCD).filter (fun t =>
          t.endpoint = "/items")).foldl TestGenerator.addToGroup {}).methods ∧
      ∃ t ∈ TestGenerator.check_unsupported_http_methods pstateCD
          TestGenerator.unsupported_success_codes [] [],
        t.endpoint = "/items" ∧ pyLower t.method = "patch") :=
  ⟨(claim_C1 pstateCD TestGenerator.unsupported_success_codes [] [] "/items"
      (((TestGenerator.fuzz_request_params pstateCD).filter (fun t =>
        t.endpoint = "/items")).foldl TestGenerator.addToGroup {})
      (by decide) (by decide)).1 "patch",
   (claim_C1 pstateCD TestGenerator.unsupported_success_codes [] [] "/items"
      (((TestGenerator.fuzz_request_params pstateCD).filter (fun t =>
        t.endpoint = "/items")).foldl TestGenerator.addToGroup {})
      (by decide) (by decide)).2 "patch"⟩
